import Mathlib

/-!
# MSM cpufreq driver (`arch/arm/mach-msm/cpufreq.c`)

A shallow embedding of the frequency-scaling coordinator: the table builder
`cpufreq_parse_dt`, the aggregator `update_l2_bw`, the transition
`set_cpu_freq` / `msm_cpufreq_target`, the suspend and resume handlers
`msm_cpufreq_suspend` / `msm_cpufreq_resume` and the ceiling attribute
`store_ex_max_freq`.

Conventions of the embedding
* The target is 32-bit ARM: `unsigned int`, `unsigned long`, `u32` and the
  value of a `long` seen through an `unsigned long` are naturals below `2^32`;
  every C multiplication that can wrap carries an explicit `% 2^32`.
* `int` results are `Int`; `if (rc)` is `rc ≠ 0`.
* A `struct clk *` is `Option Nat` (`none` is `NULL`); an array reached
  through a pointer is a `List` read with `rd` (`[]` for `NULL`).
* Calls that leave the driver (clock layer, bus scaling, cpufreq core,
  scheduler, work queue, mutexes) are recorded, in program order, in
  `State.trace`; what they return is given by the oracles of `Env`, which may
  depend on everything recorded so far.
* The queries `clk_round_rate` and `cpufreq_get_policy`, `pr_err`/`pr_debug`/
  `pr_info` and the `trace_*` tracepoints are not recorded.
-/

namespace MsmCpufreq

/-! ## Constants of the kernel headers -/

/-- Modulus of 32-bit unsigned arithmetic. -/
def U32 : Nat := 2 ^ 32

/-- Modulus of 64-bit unsigned arithmetic (`uint64_t ib`). -/
def U64 : Nat := 2 ^ 64

/-- Modelled from the spec: the "invalid" marker of a step. The macro
`CPUFREQ_ENTRY_INVALID` of `linux/cpufreq.h` is not among the sources; it is
`~0` stored in an `unsigned int`. -/
def CPUFREQ_ENTRY_INVALID : Nat := 2 ^ 32 - 1

/-- Modelled from the spec: the "end" sentinel that terminates the table. The
macro `CPUFREQ_TABLE_END` of `linux/cpufreq.h` is not among the sources; it is
`~1` stored in an `unsigned int`. -/
def CPUFREQ_TABLE_END : Nat := 2 ^ 32 - 2

/-- Largest errno encoded in a pointer or `long` (`linux/err.h`). -/
def MAX_ERRNO : Nat := 4095

/-- The test `IS_ERR_VALUE(x)`, that is `x >= (unsigned long)-MAX_ERRNO`. -/
def IS_ERR_VALUE (x : Nat) : Bool := decide (U32 - MAX_ERRNO ≤ x)

def ENOMEM : Int := 12
def EFAULT : Int := 14
def ENODEV : Int := 19
def EINVAL : Int := 22

/-- Rounding direction "lowest frequency at or above the target". -/
def CPUFREQ_RELATION_L : Nat := 0
/-- Rounding direction "highest frequency at or below the target". -/
def CPUFREQ_RELATION_H : Nat := 1

def CPUFREQ_PRECHANGE : Nat := 0
def CPUFREQ_POSTCHANGE : Nat := 1

def SCHED_FIFO : Nat := 1
def MAX_RT_PRIO : Nat := 100

/-- The value `MSM_CPUFREQ_NO_LIMIT` (`0xFFFFFFFF`) of `mach/cpufreq.h`. -/
def MSM_CPUFREQ_NO_LIMIT : Nat := 2 ^ 32 - 1

/-! ## Data model -/

/-- One row of `struct cpufreq_frequency_table`. -/
structure cpufreq_frequency_table where
  index : Nat
  frequency : Nat
deriving DecidableEq, Repr, Inhabited

/-- One `struct msm_bus_vectors`. -/
structure msm_bus_vectors where
  src : Nat
  dst : Nat
  ab : Nat
  ib : Nat
deriving DecidableEq, Repr, Inhabited

/-- One `struct msm_bus_paths`; `vectors` is the offset of the pointer `v`
inside `bus_vec_lst`. -/
structure msm_bus_paths where
  num_paths : Nat
  vectors : Nat
deriving DecidableEq, Repr, Inhabited

/-- The fields of `struct cpufreq_policy` the driver reads. -/
structure cpufreq_policy where
  cpu : Nat
  cur : Nat
  min : Nat
  max : Nat
  cpuinfo_min_freq : Nat
  cpuinfo_max_freq : Nat
deriving DecidableEq, Repr, Inhabited

/-- The data fields of `struct cpufreq_work_struct`. -/
structure cpufreq_work_struct where
  policy : Option cpufreq_policy
  frequency : Nat
  index : Nat
  status : Int
deriving DecidableEq, Repr, Inhabited

/-- The mutexes of the driver. -/
inductive Mutex where
  | l2bw_lock
  | suspend_mutex (cpu : Nat)
deriving DecidableEq, Repr

/-- Calls that leave the driver, with their arguments. -/
inductive Event where
  | mutex_lock (m : Mutex)
  | mutex_unlock (m : Mutex)
  | clk_set_rate (clk : Option Nat) (rate : Nat)
  | acpuclk_set_rate (cpu : Nat) (rate : Nat)
  | msm_bus_scale_client_update_request (client : Nat) (index : Nat)
  | cpufreq_notify_transition (old new cpu : Nat) (state : Nat)
  | sched_setscheduler_nocheck (policy : Int) (priority : Int)
  | cancel_work_sync (cpu : Nat)
  | queue_work_on (cpu : Nat)
  | complete (cpu : Nat)
  | wait_for_completion (cpu : Nat)
  | msm_cpufreq_set_freq_limits (cpu : Nat) (min max : Nat)
  | cpufreq_update_policy (cpu : Nat)
  | get_online_cpus
  | put_online_cpus
deriving DecidableEq, Repr

/-- The file-scope variables of the driver, the kernel state it reads
(cpu masks, the table registered with the cpufreq core, the scheduling class
of `current`, the task that runs `set_cpu_freq`) and the record of outgoing
calls. -/
structure State where
  cpu_clk : Nat → Option Nat
  l2_clk : Option Nat
  freq_index : Nat → Nat
  freq_table : List cpufreq_frequency_table
  l2_khz : List Nat
  is_clk : Bool
  is_sync : Bool
  bus_vec_lst : List msm_bus_vectors
  bus_bw_usecase : List msm_bus_paths
  bus_bw_num_usecases : Nat
  bus_client : Nat
  cpufreq_work : Nat → cpufreq_work_struct
  ex_max_freq : Nat
  device_suspended : Nat → Int
  cpu_online : List Nat
  cpu_possible : List Nat
  cpufreq_show_table : Nat → Option (List cpufreq_frequency_table)
  current_policy : Nat
  current_rt_priority : Nat
  trace : List Event

/-- The collaborators of the driver.

* `clk_round_rate clk rate` is the `long` result seen as `unsigned long`.
* `cpufreq_frequency_table_target policy table target relation` is
  `some index` when the kernel function returns `0` and stores `index`,
  `none` when it fails (it then returns `-EINVAL`).
* `msm_turbo` is the identity unless `CONFIG_TURBO_BOOST` is set.
* `sscanf_u buf` is `some freq` when `sscanf(buf, "%u", &freq)` converts one
  item.
* `devm_kzalloc n` tells whether the `n`-th allocation of
  `cpufreq_parse_dt` (in source order, from `0`) succeeds.
* `nr_cpumask_bits` is the value `cpumask_next` leaves in the loop variable
  when a `for_each_*_cpu` loop runs out of cpus.
* `cpufreq_get_policy cpu` is the return value of the kernel function and the
  policy it copies out. -/
structure Env where
  clk_round_rate : Option Nat → Nat → Nat
  clk_set_rate : List Event → Option Nat → Nat → Int
  acpuclk_set_rate : List Event → Nat → Nat → Int
  msm_bus_scale_client_update_request : List Event → Nat → Nat → Int
  cpufreq_frequency_table_target :
    cpufreq_policy → List cpufreq_frequency_table → Nat → Nat → Option Nat
  msm_turbo : Nat → Nat
  sscanf_u : String → Option Nat
  devm_kzalloc : Nat → Bool
  nr_cpumask_bits : Nat
  cpufreq_get_policy : List Event → Nat → Int × cpufreq_policy

/-- The device-tree node handed to `cpufreq_parse_dt`: the cells of the two
properties when present, and what `of_property_read_u32_array` returns for
each. -/
structure device where
  ports : Option (List Nat)
  ports_rc : Int
  tbl : Option (List Nat)
  tbl_rc : Int

/-- Array read `a[i]`. -/
def rd {α : Type} [Inhabited α] (a : List α) (i : Nat) : α := a.getD i default

/-- Record one outgoing call. -/
def emit (s : State) (e : Event) : State := { s with trace := s.trace ++ [e] }

/-! ## `update_l2_bw` -/

/-- The loop of `update_l2_bw` that computes `index`. -/
def l2bw_index (s : State) (also_cpu : Option Nat) : Nat :=
  let index := match also_cpu with
    | some cpu => s.freq_index cpu
    | none => 0
  s.cpu_online.foldl (fun index cpu => max index (s.freq_index cpu)) index

/-- The function `update_l2_bw(int *also_cpu)`. -/
def update_l2_bw (env : Env) (s : State) (also_cpu : Option Nat) : State :=
  let s := emit s (Event.mutex_lock Mutex.l2bw_lock)
  let index := l2bw_index s also_cpu
  let r : Int × State :=
    match s.l2_clk with
    | some clk =>
      let rate := (rd s.l2_khz index * 1000) % U32
      (env.clk_set_rate s.trace (some clk) rate, emit s (Event.clk_set_rate (some clk) rate))
    | none => (0, s)
  if r.1 ≠ 0 then
    emit r.2 (Event.mutex_unlock Mutex.l2bw_lock)
  else
    let s := r.2
    let s :=
      if s.bus_client ≠ 0 then
        emit s (Event.msm_bus_scale_client_update_request s.bus_client index)
      else s
    emit s (Event.mutex_unlock Mutex.l2bw_lock)

/-! ## `set_cpu_freq`, `set_cpu_work`, `msm_cpufreq_target` -/

/-- Whether `set_cpu_freq` moves the caller to `SCHED_FIFO`: the test
`freqs.new > freqs.old && current->policy != SCHED_FIFO`. -/
def raises_priority (s : State) (policy : cpufreq_policy) (new_freq : Nat) : Bool :=
  decide (new_freq > policy.cur) && decide (s.current_policy ≠ SCHED_FIFO)

/-- The first part of `set_cpu_freq`, up to and including the
`CPUFREQ_PRECHANGE` notification; `new_freq` is the value after `msm_turbo`. -/
def set_cpu_freq_prechange (s : State) (policy : cpufreq_policy) (new_freq : Nat) : State :=
  let s :=
    if raises_priority s policy new_freq then
      emit { s with current_policy := SCHED_FIFO, current_rt_priority := MAX_RT_PRIO - 1 }
        (Event.sched_setscheduler_nocheck SCHED_FIFO (( MAX_RT_PRIO : Int) - 1))
    else s
  emit s (Event.cpufreq_notify_transition policy.cur new_freq policy.cpu CPUFREQ_PRECHANGE)

/-- The rate handed to `clk_set_rate` for the cpu clock:
`clk_round_rate(cpu_clk[policy->cpu], new_freq * 1000)`. -/
def cpu_clk_rate (env : Env) (s : State) (policy : cpufreq_policy) (new_freq : Nat) : Nat :=
  env.clk_round_rate (s.cpu_clk policy.cpu) ((new_freq * 1000) % U32) % U32

/-- The middle part of `set_cpu_freq`: the clock-set operation and, in clock
mode and on success, the update of `freq_index` followed by `update_l2_bw`. -/
def set_cpu_freq_clock (env : Env) (s : State) (policy : cpufreq_policy)
    (new_freq index : Nat) : Int × State :=
  if s.is_clk then
    let rate := cpu_clk_rate env s policy new_freq
    let ret := env.clk_set_rate s.trace (s.cpu_clk policy.cpu) rate
    let s := emit s (Event.clk_set_rate (s.cpu_clk policy.cpu) rate)
    if ret = 0 then
      (ret, update_l2_bw env
        { s with freq_index := Function.update s.freq_index policy.cpu index } none)
    else (ret, s)
  else
    (env.acpuclk_set_rate s.trace policy.cpu new_freq,
      emit s (Event.acpuclk_set_rate policy.cpu new_freq))

/-- The last part of `set_cpu_freq`: "Restore priority after clock ramp-up". -/
def restore_priority (s : State) (policy : cpufreq_policy) (new_freq : Nat)
    (saved_sched_policy saved_sched_rt_prio : Int) : State :=
  if decide (new_freq > policy.cur) && decide (saved_sched_policy ≥ 0) then
    emit
      { s with current_policy := saved_sched_policy.toNat,
               current_rt_priority := saved_sched_rt_prio.toNat }
      (Event.sched_setscheduler_nocheck saved_sched_policy saved_sched_rt_prio)
  else s

/-- The function `set_cpu_freq(policy, new_freq, index)`. -/
def set_cpu_freq (env : Env) (s : State) (policy : cpufreq_policy)
    (new_freq index : Nat) : Int × State :=
  let new_freq := env.msm_turbo new_freq
  let raise := raises_priority s policy new_freq
  let saved_sched_policy : Int := if raise then (s.current_policy : Int) else -EINVAL
  let saved_sched_rt_prio : Int := if raise then (s.current_rt_priority : Int) else -EINVAL
  let s := set_cpu_freq_prechange s policy new_freq
  let r := set_cpu_freq_clock env s policy new_freq index
  let ret := r.1
  let s := r.2
  let s :=
    if ret = 0 then
      emit s
        (Event.cpufreq_notify_transition policy.cur new_freq policy.cpu CPUFREQ_POSTCHANGE)
    else s
  let s := restore_priority s policy new_freq saved_sched_policy saved_sched_rt_prio
  (ret, s)

/-- What the clock-set operation of `set_cpu_freq` returns: `clk_set_rate`
on the core's clock in clock mode, `acpuclk_set_rate` otherwise, both called
right after the pre-change notification. -/
def clock_set_result (env : Env) (s : State) (policy : cpufreq_policy) (new_freq : Nat) : Int :=
  if s.is_clk then
    env.clk_set_rate (set_cpu_freq_prechange s policy (env.msm_turbo new_freq)).trace
      (s.cpu_clk policy.cpu) (cpu_clk_rate env s policy (env.msm_turbo new_freq))
  else
    env.acpuclk_set_rate (set_cpu_freq_prechange s policy (env.msm_turbo new_freq)).trace
      policy.cpu (env.msm_turbo new_freq)

/-- The work function `set_cpu_work`, run for the work item of `cpu`; the
policy is the one `cpu_work->policy` points to. -/
def set_cpu_work (env : Env) (s : State) (cpu : Nat) : State :=
  let cpu_work := s.cpufreq_work cpu
  let r := set_cpu_freq env s (cpu_work.policy.getD default) cpu_work.frequency cpu_work.index
  let s := r.2
  let work : cpufreq_work_struct := { (s.cpufreq_work cpu) with status := r.1 }
  let s := { s with cpufreq_work := Function.update s.cpufreq_work cpu work }
  emit s (Event.complete cpu)

/-- The function `msm_cpufreq_target(policy, target_freq, relation)`. The
work item queued on `policy->cpu` runs `set_cpu_work` before
`wait_for_completion` returns. -/
def msm_cpufreq_target (env : Env) (s : State) (policy : cpufreq_policy)
    (target_freq relation : Nat) : Int × State :=
  let cpu := policy.cpu
  let s := emit s (Event.mutex_lock (Mutex.suspend_mutex cpu))
  if target_freq = policy.cur then
    (0, emit s (Event.mutex_unlock (Mutex.suspend_mutex cpu)))
  else if s.device_suspended cpu ≠ 0 then
    (-EFAULT, emit s (Event.mutex_unlock (Mutex.suspend_mutex cpu)))
  else
    let table := (s.cpufreq_show_table cpu).getD []
    match env.cpufreq_frequency_table_target policy table target_freq relation with
    | none => (-EINVAL, emit s (Event.mutex_unlock (Mutex.suspend_mutex cpu)))
    | some index =>
      let work : cpufreq_work_struct :=
        { policy := some policy, frequency := (rd table index).frequency,
          index := (rd table index).index, status := -ENODEV }
      let s := { s with cpufreq_work := Function.update s.cpufreq_work cpu work }
      let s := emit s (Event.cancel_work_sync cpu)
      let s := emit s (Event.queue_work_on cpu)
      let s := set_cpu_work env s cpu
      let s := emit s (Event.wait_for_completion cpu)
      ((s.cpufreq_work cpu).status, emit s (Event.mutex_unlock (Mutex.suspend_mutex cpu)))

/-- The state in which the work item queued by `msm_cpufreq_target` starts,
on the path where the target resolves to position `idx` of the table: the
mutex is held, `cpu_work` is filled in, and `cancel_work_sync` and
`queue_work_on` have been called. -/
def target_work_state (s : State) (policy : cpufreq_policy) (idx : Nat) : State :=
  let cpu := policy.cpu
  let table := (s.cpufreq_show_table cpu).getD []
  let s := emit s (Event.mutex_lock (Mutex.suspend_mutex cpu))
  let work : cpufreq_work_struct :=
    { policy := some policy, frequency := (rd table idx).frequency,
      index := (rd table idx).index, status := -ENODEV }
  let s := { s with cpufreq_work := Function.update s.cpufreq_work cpu work }
  let s := emit s (Event.cancel_work_sync cpu)
  emit s (Event.queue_work_on cpu)

/-- The step `table[index]` of `msm_cpufreq_target`, for the table registered
for `policy->cpu` and the position `idx` the target resolved to. -/
def resolved_step (s : State) (policy : cpufreq_policy) (idx : Nat) : cpufreq_frequency_table :=
  rd ((s.cpufreq_show_table policy.cpu).getD []) idx

/-- The index `update_l2_bw(NULL)` computes once `freq_index[cpu]` is `i`. -/
def aggregate_after (s : State) (cpu i : Nat) : Nat :=
  l2bw_index { s with freq_index := Function.update s.freq_index cpu i } none

/-! ## `msm_cpufreq_suspend`, `msm_cpufreq_resume` -/

/-- The value `NOTIFY_DONE` of `linux/notifier.h`. -/
def NOTIFY_DONE : Int := 0

/-- The body of the loop of `msm_cpufreq_suspend` for one cpu. -/
def suspend_step (s : State) (cpu : Nat) : State :=
  let s := emit s (Event.mutex_lock (Mutex.suspend_mutex cpu))
  let s := { s with device_suspended := Function.update s.device_suspended cpu 1 }
  emit s (Event.mutex_unlock (Mutex.suspend_mutex cpu))

/-- The function `msm_cpufreq_suspend()`. -/
def msm_cpufreq_suspend (s : State) : Int × State :=
  (NOTIFY_DONE, s.cpu_possible.foldl suspend_step s)

/-- The body of the first loop of `msm_cpufreq_resume` for one cpu. -/
def resume_clear_step (s : State) (cpu : Nat) : State :=
  { s with device_suspended := Function.update s.device_suspended cpu 0 }

/-- The body of the second loop of `msm_cpufreq_resume` for one online cpu:
the two `continue` tests, then `cpufreq_update_policy(cpu)`. -/
def resume_check_step (env : Env) (s : State) (cpu : Nat) : State :=
  let r := env.cpufreq_get_policy s.trace cpu
  if r.1 ≠ 0 then s
  else if r.2.cur ≤ r.2.max ∧ r.2.cur ≥ r.2.min then s
  else emit s (Event.cpufreq_update_policy cpu)

/-- The function `msm_cpufreq_resume()`. -/
def msm_cpufreq_resume (env : Env) (s : State) : Int × State :=
  let s := s.cpu_possible.foldl resume_clear_step s
  let s := emit s Event.get_online_cpus
  let s := s.cpu_online.foldl (resume_check_step env) s
  let s := emit s Event.put_online_cpus
  (NOTIFY_DONE, s)

/-- The condition of the specification under which resume corrects a core:
its policy could be read and its recorded current frequency lies outside
`[policy.min, policy.max]`. The argument is the return value and the policy
of `cpufreq_get_policy`. -/
def policy_violated (r : Int × cpufreq_policy) : Bool :=
  decide (r.1 = 0) && !(decide (r.2.min ≤ r.2.cur) && decide (r.2.cur ≤ r.2.max))

/-- The corrective policy updates in the words of the specification: "for each
online core compare its last-known current frequency against the policy
min/max; if it falls outside, force a policy/frequency correction". The cores
are visited in order; `tr` is the record of calls when a core is visited, so a
policy is read after the corrections of the cores before it. -/
def spec_resume_updates (env : Env) : List Event → List Nat → List Event
  | _, [] => []
  | tr, cpu :: rest =>
    if policy_violated (env.cpufreq_get_policy tr cpu) then
      Event.cpufreq_update_policy cpu ::
        spec_resume_updates env (tr ++ [Event.cpufreq_update_policy cpu]) rest
    else spec_resume_updates env tr rest

/-! ## `store_ex_max_freq` -/

/-- The conversion `ret = count` of a `size_t` into the `int` that the
function returns. -/
def int_of_size (count : Nat) : Int :=
  if count % U32 < 2 ^ 31 then ((count % U32 : Nat) : Int) else ((count % U32 : Nat) : Int) - 2 ^ 32

/-- The function `store_ex_max_freq(policy, buf, count)`. After the
`for_each_possible_cpu` loop the variable `cpu` holds `nr_cpumask_bits`, and
`cpufreq_update_policy(cpu)` is the statement that follows the loop. -/
def store_ex_max_freq (env : Env) (s : State) (policy : cpufreq_policy)
    (buf : String) (count : Nat) : Int × State :=
  match s.cpufreq_show_table policy.cpu with
  | none => (-EINVAL, s)
  | some freq_table =>
    match env.sscanf_u buf with
    | none => (-EINVAL, s)
    | some freq =>
      let s := emit s (Event.mutex_lock (Mutex.suspend_mutex policy.cpu))
      match env.cpufreq_frequency_table_target policy freq_table (freq % U32)
          CPUFREQ_RELATION_H with
      | none => (-EINVAL, emit s (Event.mutex_unlock (Mutex.suspend_mutex policy.cpu)))
      | some index =>
        let s := { s with ex_max_freq := (rd freq_table index).frequency }
        let s := s.cpu_possible.foldl
          (fun s cpu =>
            emit s (Event.msm_cpufreq_set_freq_limits cpu MSM_CPUFREQ_NO_LIMIT s.ex_max_freq))
          s
        let cpu := env.nr_cpumask_bits
        let s := emit s (Event.cpufreq_update_policy cpu)
        (int_of_size count, emit s (Event.mutex_unlock (Mutex.suspend_mutex policy.cpu)))

/-! ## `cpufreq_parse_dt` -/

/-- The variables carried by the `for (i = 0; i < nf; i++)` loop of
`cpufreq_parse_dt`, apart from `i`. -/
structure parse_vars where
  j : Nat
  freq_table : List cpufreq_frequency_table
  l2_khz : List Nat
  usecase : List msm_bus_paths
  bus_vec_lst : List msm_bus_vectors
  v : Nat
deriving DecidableEq, Repr

/-- The inner loop `for (k = 0; k < num_paths; k++)`: fills the vectors of
one use case, starting at offset `v`. -/
def fill_vectors (ports : List Nat) (bw_mbps : Nat) (num_paths : Nat)
    (vecs : List msm_bus_vectors) (v : Nat) : List msm_bus_vectors × Nat :=
  (List.range num_paths).foldl
    (fun (acc : List msm_bus_vectors × Nat) k =>
      let vec : msm_bus_vectors :=
        { (rd acc.1 acc.2) with
          src := rd ports (k * 2), dst := rd ports (k * 2 + 1),
          ib := (bw_mbps * 1000000) % U64 }
      (acc.1.set acc.2 vec, acc.2 + 1))
    (vecs, v)

/-- One pass through the body of the loop `for (i = 0; i < nf; i++)` of
`cpufreq_parse_dt`. The boolean is `false` when the body leaves the loop by
`break`. -/
def parse_body (env : Env) (cpu_clk0 l2_clk : Option Nat) (data ports : List Nat)
    (num_paths : Nat) (i : Nat) (st : parse_vars) : Bool × parse_vars :=
  let f := env.clk_round_rate cpu_clk0 ((rd data st.j * 1000) % U32) % U32
  let st := { st with j := st.j + 1 }
  if IS_ERR_VALUE f then (false, st)
  else
    let f := f / 1000
    if decide (i > 0) && decide (f ≤ (rd st.freq_table (i - 1)).frequency) then (false, st)
    else
      let row : cpufreq_frequency_table := { index := i, frequency := f }
      let st := { st with freq_table := st.freq_table.set i row }
      let st :=
        match l2_clk with
        | some _ =>
          let f := env.clk_round_rate l2_clk ((rd data st.j * 1000) % U32) % U32
          let st := { st with j := st.j + 1 }
          if IS_ERR_VALUE f then
            let row : cpufreq_frequency_table :=
              { (rd st.freq_table i) with frequency := CPUFREQ_ENTRY_INVALID }
            { st with freq_table := st.freq_table.set i row }
          else
            { st with l2_khz := st.l2_khz.set i (f / 1000) }
        | none => st
      let st :=
        if num_paths ≠ 0 then
          let bw_mbps := rd data st.j
          let paths : msm_bus_paths := { num_paths := num_paths, vectors := st.v }
          let usecase := st.usecase.set i paths
          let r := fill_vectors ports bw_mbps num_paths st.bus_vec_lst st.v
          { st with j := st.j + 1, usecase := usecase, bus_vec_lst := r.1, v := r.2 }
        else st
      (true, st)

/-- The loop `for (i = 0; i < nf; i++)` of `cpufreq_parse_dt`, with `n` the
number of iterations left (`nf - i`). The result is the value of `i` when the
loop is left, by `break` or by its condition, with the loop variables. -/
def parse_loop (env : Env) (cpu_clk0 l2_clk : Option Nat) (data ports : List Nat)
    (num_paths : Nat) : Nat → Nat → parse_vars → Nat × parse_vars
  | 0, i, st => (i, st)
  | n + 1, i, st =>
    let r := parse_body env cpu_clk0 l2_clk data ports num_paths i st
    if r.1 then parse_loop env cpu_clk0 l2_clk data ports num_paths n (i + 1) r.2
    else (i, r.2)

/-- The part `/* Allocate all data structures. */` of `cpufreq_parse_dt`:
`0` with the zeroed arrays in place, or `-ENOMEM`. -/
def cpufreq_parse_dt_alloc (env : Env) (s : State) (nf num_paths : Nat) : Int × State :=
  if !env.devm_kzalloc 2 then (-ENOMEM, { s with freq_table := [] })
  else
    let s := { s with freq_table := List.replicate (nf + 1) default }
    if s.l2_clk.isSome && !env.devm_kzalloc 3 then (-ENOMEM, { s with l2_khz := [] })
    else
      let s := if s.l2_clk.isSome then { s with l2_khz := List.replicate nf 0 } else s
      if num_paths ≠ 0 then
        let s :=
          { s with
            bus_bw_usecase :=
              if env.devm_kzalloc 4 then List.replicate nf default else [],
            bus_vec_lst :=
              if env.devm_kzalloc 5 then List.replicate (nf * num_paths) default else [] }
        if !env.devm_kzalloc 4 || !env.devm_kzalloc 5 then (-ENOMEM, s) else (0, s)
      else (0, s)

/-- The values of the loop variables when the loop of `cpufreq_parse_dt`
starts: `j = 0`, `v = bus_vec_lst`, the arrays as allocated. -/
def parse_init (s : State) : parse_vars :=
  { j := 0, freq_table := s.freq_table, l2_khz := s.l2_khz,
    usecase := s.bus_bw_usecase, bus_vec_lst := s.bus_vec_lst, v := 0 }

/-- The part of `cpufreq_parse_dt` from `j = 0;` to the end sentinel: the
loop, then `bus_bw.num_usecases = i` and the entry `freq_table[i]`. -/
def cpufreq_parse_dt_fill (env : Env) (s : State) (data ports : List Nat)
    (num_paths nf : Nat) : State :=
  let r := parse_loop env (s.cpu_clk 0) s.l2_clk data ports num_paths nf 0 (parse_init s)
  let i := r.1
  let st := r.2
  let last : cpufreq_frequency_table := { index := i, frequency := CPUFREQ_TABLE_END }
  { s with
    bus_bw_num_usecases := i,
    freq_table := st.freq_table.set i last,
    l2_khz := st.l2_khz,
    bus_bw_usecase := st.usecase,
    bus_vec_lst := st.bus_vec_lst }

/-- The second half of `cpufreq_parse_dt`, from
`/* Parse CPU freq -> L2/Mem BW map table. */` on, with `num_cols`,
`num_paths` and `ports` as the first half leaves them. -/
def cpufreq_parse_dt_table (env : Env) (s : State) (dev : device)
    (num_cols num_paths : Nat) (ports : List Nat) : Int × State :=
  match dev.tbl with
  | none => (-EINVAL, s)
  | some data =>
    let len := data.length
    if len % num_cols ≠ 0 ∨ len = 0 then (-EINVAL, s)
    else
      let nf := len / num_cols
      if !env.devm_kzalloc 1 then (-ENOMEM, s)
      else if dev.tbl_rc ≠ 0 then (dev.tbl_rc, s)
      else
        let r := cpufreq_parse_dt_alloc env s nf num_paths
        if r.1 ≠ 0 then r
        else (0, cpufreq_parse_dt_fill env r.2 data ports num_paths nf)

/-- The function `cpufreq_parse_dt(dev)`. -/
def cpufreq_parse_dt (env : Env) (s : State) (dev : device) : Int × State :=
  let num_cols := if s.l2_clk.isSome then 2 else 1
  match dev.ports with
  | some ports =>
    let len := ports.length
    if len % 2 ≠ 0 then (-EINVAL, s)
    else if !env.devm_kzalloc 0 then (-ENOMEM, s)
    else if dev.ports_rc ≠ 0 then (dev.ports_rc, s)
    else cpufreq_parse_dt_table env s dev (num_cols + 1) (len / 2) ports
  | none => cpufreq_parse_dt_table env s dev num_cols 0 []

/-! ### Reading the rows of the table property -/

/-- The number of cells one accepted pass of the loop body consumes (the
increments `j++`): the cpu rate, the L2 rate when there is an L2 clock, the
bandwidth when `num_paths` is not zero. -/
def cells_per_step (l2_clk : Option Nat) (num_paths : Nat) : Nat :=
  1 + (if l2_clk.isSome then 1 else 0) + (if num_paths ≠ 0 then 1 else 0)

/-- The value of `num_paths` in `cpufreq_parse_dt`. -/
def dt_num_paths (dev : device) : Nat :=
  match dev.ports with
  | some ports => ports.length / 2
  | none => 0

/-- The value of `num_cols` in `cpufreq_parse_dt`. -/
def dt_num_cols (s : State) (dev : device) : Nat :=
  (if s.l2_clk.isSome then 2 else 1) + (if dev.ports.isSome then 1 else 0)

/-- The rounded cpu rate, as `unsigned long`, that the loop body computes from
the cell at offset `j`: `clk_round_rate(cpu_clk[0], data[j] * 1000)`. -/
def cpu_round (env : Env) (cpu_clk0 : Option Nat) (data : List Nat) (j : Nat) : Nat :=
  env.clk_round_rate cpu_clk0 ((rd data j * 1000) % U32) % U32

/-- The rounded L2 rate, as `unsigned long`, that the loop body computes from
the cell at offset `j`: `clk_round_rate(l2_clk, data[j] * 1000)`. -/
def l2_round (env : Env) (l2_clk : Option Nat) (data : List Nat) (j : Nat) : Nat :=
  env.clk_round_rate l2_clk ((rd data j * 1000) % U32) % U32

/-- The cpu cells of `n` consecutive rows of the table property, from row `i`
on, for rows of `stride` cells. -/
def cpu_cells (data : List Nat) (stride : Nat) : Nat → Nat → List Nat
  | _, 0 => []
  | i, n + 1 => rd data (i * stride) :: cpu_cells data stride (i + 1) n

/-- The number of accepted steps in the words of the specification: "the
index of the first configured step whose rounded CPU rate is an error or is
not strictly greater than the previous accepted step's rate (or the full
configured length if there is no such step)". `prev` is the rounded rate, in
kHz, of the previous accepted step, when there is one; the list holds the cpu
rates, in kHz, of the configured steps still to come. -/
def spec_accepted_count (env : Env) (cpu_clk0 : Option Nat) : Option Nat → List Nat → Nat
  | _, [] => 0
  | prev, khz :: rest =>
    let f := env.clk_round_rate cpu_clk0 ((khz * 1000) % U32) % U32
    if IS_ERR_VALUE f then 0
    else
      match prev with
      | some p =>
        if f / 1000 ≤ p then 0
        else 1 + spec_accepted_count env cpu_clk0 (some (f / 1000)) rest
      | none => 1 + spec_accepted_count env cpu_clk0 (some (f / 1000)) rest

/-- Modelled from the spec: the resolver `cpufreq_frequency_table_target` of
the cpufreq core, which is not among the sources. Section 4.2: "AT_MOST picks
the highest step ≤ target; AT_LEAST picks the lowest step ≥ target; if no
step satisfies the relation, fails with InvalidTarget"; the steps are those
before the end sentinel, not marked invalid, inside the policy bounds
`[min, max]` (the ceiling of section 4.5 is a policy `max`). The result is the
position of the chosen step in the table. -/
def spec_table_target (policy : cpufreq_policy) (table : List cpufreq_frequency_table)
    (target_freq relation : Nat) : Option Nat :=
  let steps := (table.takeWhile (fun e => e.frequency ≠ CPUFREQ_TABLE_END)).enum
  let usable := steps.filter (fun p =>
    decide (p.2.frequency ≠ CPUFREQ_ENTRY_INVALID) &&
      decide (policy.min ≤ p.2.frequency) && decide (p.2.frequency ≤ policy.max))
  if relation = CPUFREQ_RELATION_H then
    (usable.filter (fun p => decide (p.2.frequency ≤ target_freq))).foldl
      (fun best p =>
        match best with
        | none => some p.1
        | some b => if (rd table b).frequency < p.2.frequency then some p.1 else some b)
      none
  else
    (usable.filter (fun p => decide (target_freq ≤ p.2.frequency))).foldl
      (fun best p =>
        match best with
        | none => some p.1
        | some b => if p.2.frequency < (rd table b).frequency then some p.1 else some b)
      none

/-! ## Concrete configurations used by the examples -/

/-- The test `isspace` of the kernel on a character of the buffer: a blank,
a control character from tab to carriage return, or the no-break space. -/
def scan_isspace (c : Char) : Bool :=
  decide (c.toNat = 32 ∨ (9 ≤ c.toNat ∧ c.toNat ≤ 13) ∨ c.toNat = 160)

/-- The test `isdigit` on a character of the buffer. -/
def scan_isdigit (c : Char) : Bool :=
  decide (48 ≤ c.toNat ∧ c.toNat ≤ 57)

/-- The buffer without its leading white space. -/
def scan_skip_spaces : List Char → List Char
  | [] => []
  | c :: cs => if scan_isspace c then scan_skip_spaces cs else c :: cs

/-- Value of the longest run of decimal digits at the head of the buffer, most
significant first, on top of `acc`; what follows the run is not read. -/
def scan_digits : List Char → Nat → Nat
  | [], acc => acc
  | c :: cs, acc =>
    if scan_isdigit c then scan_digits cs (acc * 10 + (c.toNat - 48)) else acc

/-- A stand-in for `sscanf(buf, "%u", &freq)`, which is library code: leading
white space is skipped, then the longest run of decimal digits is converted
into an `unsigned int`, and the rest of the buffer (a final newline, say) is
left unread. No conversion takes place, and the result is `none`, when the
first character after the white space is not a digit or is missing. -/
def scan_decimal (buf : String) : Option Nat :=
  match scan_skip_spaces buf.data with
  | [] => none
  | c :: cs => if scan_isdigit c then some (scan_digits (c :: cs) 0 % U32) else none

/-- A clock layer and cpufreq core in which every call succeeds: rates round
to themselves, the resolver is the one of the specification, four cpus. -/
def env_ok : Env :=
  { clk_round_rate := fun _ rate => rate
    clk_set_rate := fun _ _ _ => 0
    acpuclk_set_rate := fun _ _ _ => 0
    msm_bus_scale_client_update_request := fun _ _ _ => 0
    cpufreq_frequency_table_target := spec_table_target
    msm_turbo := fun f => f
    sscanf_u := scan_decimal
    devm_kzalloc := fun _ => true
    nr_cpumask_bits := 4
    cpufreq_get_policy := fun _ cpu =>
      (0, { cpu := cpu, cur := 600000, min := 300000, max := 900000,
            cpuinfo_min_freq := 300000, cpuinfo_max_freq := 900000 }) }

/-- As `env_ok`, but the L2 clock (handle `100`) cannot round 150 MHz:
`clk_round_rate` returns `-EINVAL` for it. -/
def env_l2bad : Env :=
  { env_ok with
    clk_round_rate := fun clk rate =>
      if clk = some 100 ∧ rate = 150000000 then U32 - 22 else rate }

/-- As `env_ok`, but with the policies seen at resume: cpu `0` inside its
bounds, cpu `1` above its maximum, the policy of cpu `2` unreadable, cpu `3`
below its minimum. -/
def env_resume : Env :=
  { env_ok with
    cpufreq_get_policy := fun _ cpu =>
      if cpu = 1 then
        (0, { cpu := 1, cur := 900000, min := 300000, max := 600000,
              cpuinfo_min_freq := 300000, cpuinfo_max_freq := 900000 })
      else if cpu = 2 then (-19, default)
      else if cpu = 3 then
        (0, { cpu := 3, cur := 200000, min := 300000, max := 900000,
              cpuinfo_min_freq := 300000, cpuinfo_max_freq := 900000 })
      else
        (0, { cpu := cpu, cur := 600000, min := 300000, max := 900000,
              cpuinfo_min_freq := 300000, cpuinfo_max_freq := 900000 }) }

/-- As `env_ok`, but `clk_set_rate` on the cpu clocks fails with `-EIO`. -/
def env_setfail : Env :=
  { env_ok with clk_set_rate := fun _ clk _ => if clk = some 100 then 0 else -5 }

/-- The driver before `cpufreq_parse_dt`: four cpus with clock handles
`0..3`, an L2 clock with handle `100`, everything else zero. -/
def s_boot : State :=
  { cpu_clk := fun c => if c < 4 then some c else none
    l2_clk := some 100
    freq_index := fun _ => 0
    freq_table := []
    l2_khz := []
    is_clk := false
    is_sync := false
    bus_vec_lst := []
    bus_bw_usecase := []
    bus_bw_num_usecases := 0
    bus_client := 0
    cpufreq_work := fun _ => default
    ex_max_freq := 0
    device_suspended := fun _ => 0
    cpu_online := [0, 1, 2, 3]
    cpu_possible := [0, 1, 2, 3]
    cpufreq_show_table := fun _ => none
    current_policy := 0
    current_rt_priority := 0
    trace := [] }

/-- A table property of three rows `(cpu kHz, L2 kHz)`. -/
def dev_3x2 : device :=
  { ports := none, ports_rc := 0,
    tbl := some [300000, 150000, 600000, 300000, 900000, 450000], tbl_rc := 0 }

/-- The table `[300000, 600000, 900000]` kHz of the specification, with its
end sentinel. -/
def table_369 : List cpufreq_frequency_table :=
  [{ index := 0, frequency := 300000 }, { index := 1, frequency := 600000 },
   { index := 2, frequency := 900000 }, { index := 3, frequency := CPUFREQ_TABLE_END }]

/-- The driver after a successful probe with `table_369`: clock mode, L2
rates `[150000, 300000, 450000]`, bus client `7`, cpu `0` at step `1`. -/
def s_run : State :=
  { s_boot with
    freq_table := table_369
    l2_khz := [150000, 300000, 450000]
    is_clk := true
    bus_client := 7
    bus_bw_num_usecases := 3
    freq_index := fun c => if c = 0 then 1 else 0
    cpufreq_show_table := fun c => if c < 4 then some table_369 else none }

/-- The same driver after suspend-prepare: every core is suspended. -/
def s_suspended : State := { s_run with device_suspended := fun _ => 1 }

/-- The driver after `cpufreq_parse_dt` has run on `dev_3x2` with the clock
layer `env_l2bad`, then registered bus client `7` and entered clock mode. -/
def s_l2_invalid : State :=
  { (cpufreq_parse_dt env_l2bad s_boot dev_3x2).2 with is_clk := true, bus_client := 7 }

/-- The driver of the scenario of the specification: table `table_369`,
every core at step `0`. -/
def s_step0 : State := { s_run with freq_index := fun _ => 0 }

/-- The same with cpu `2` at step `2`. -/
def s_step0_other2 : State := { s_run with freq_index := fun c => if c = 2 then 2 else 0 }

/-- The policy of cpu `0` while it runs at 300000 kHz. -/
def policy0_300 : cpufreq_policy :=
  { cpu := 0, cur := 300000, min := 300000, max := 900000,
    cpuinfo_min_freq := 300000, cpuinfo_max_freq := 900000 }

/-- The policy of cpu `1` while it runs at 300000 kHz. -/
def policy1_300 : cpufreq_policy :=
  { cpu := 1, cur := 300000, min := 300000, max := 900000,
    cpuinfo_min_freq := 300000, cpuinfo_max_freq := 900000 }

/-- As `env_ok`, but the clock of cpu `1` (handle `1`) has no rate of 600 MHz
and rounds it up to 648 MHz. -/
def env_round648 : Env :=
  { env_ok with
    clk_round_rate := fun clk rate =>
      if clk = some 1 ∧ rate = 600000000 then 648000000 else rate }

/-- As `env_ok`, but built with `CONFIG_TURBO_BOOST` and an `msm_turbo` that
caps the frequency at 600000 kHz. -/
def env_turbo_cap : Env :=
  { env_ok with msm_turbo := fun f => if f > 600000 then 600000 else f }

/-- The policy of cpu `0` while it runs at 600000 kHz. -/
def policy0 : cpufreq_policy :=
  { cpu := 0, cur := 600000, min := 300000, max := 900000,
    cpuinfo_min_freq := 300000, cpuinfo_max_freq := 900000 }

/-! ## Theorems -/

/-! ### Auxiliary facts -/

@[simp] theorem emit_trace (s : State) (e : Event) : (emit s e).trace = s.trace ++ [e] := rfl
@[simp] theorem emit_freq_index (s : State) (e : Event) : (emit s e).freq_index = s.freq_index := rfl

theorem prechange_freq_index (s : State) (policy : cpufreq_policy) (f : Nat) :
    (set_cpu_freq_prechange s policy f).freq_index = s.freq_index := by
  unfold set_cpu_freq_prechange emit; split <;> rfl

theorem prechange_is_clk (s : State) (policy : cpufreq_policy) (f : Nat) :
    (set_cpu_freq_prechange s policy f).is_clk = s.is_clk := by
  unfold set_cpu_freq_prechange emit; split <;> rfl

theorem prechange_cpu_clk (s : State) (policy : cpufreq_policy) (f : Nat) :
    (set_cpu_freq_prechange s policy f).cpu_clk = s.cpu_clk := by
  unfold set_cpu_freq_prechange emit; split <;> rfl

theorem prechange_trace (s : State) (policy : cpufreq_policy) (f : Nat) :
    (set_cpu_freq_prechange s policy f).trace =
      s.trace ++ ((if raises_priority s policy f then
          [Event.sched_setscheduler_nocheck SCHED_FIFO (( MAX_RT_PRIO : Int) - 1)] else []) ++
        [Event.cpufreq_notify_transition policy.cur f policy.cpu CPUFREQ_PRECHANGE]) := by
  unfold set_cpu_freq_prechange emit; split <;> simp

theorem restore_priority_freq_index (s : State) (policy : cpufreq_policy) (f : Nat) (a b : Int) :
    (restore_priority s policy f a b).freq_index = s.freq_index := by
  unfold restore_priority emit; split <;> rfl

theorem restore_priority_trace (s : State) (policy : cpufreq_policy) (f : Nat) (a b : Int) :
    (restore_priority s policy f a b).trace =
      s.trace ++ (if decide (f > policy.cur) && decide (a ≥ 0) then
        [Event.sched_setscheduler_nocheck a b] else []) := by
  unfold restore_priority emit; split <;> simp

theorem set_cpu_freq_clock_fst (env : Env) (s : State) (policy : cpufreq_policy) (new_freq index : Nat) :
    (set_cpu_freq_clock env (set_cpu_freq_prechange s policy (env.msm_turbo new_freq)) policy
      (env.msm_turbo new_freq) index).1 = clock_set_result env s policy new_freq := by
  unfold set_cpu_freq_clock clock_set_result
  simp only [prechange_is_clk, prechange_cpu_clk, cpu_clk_rate]
  by_cases hc : s.is_clk = true
  · simp only [hc, if_true]; split <;> rfl
  · simp only [hc]; rfl

theorem set_cpu_freq_clock_fail (env : Env) (s : State) (policy : cpufreq_policy) (new_freq index : Nat)
    (h : (set_cpu_freq_clock env s policy new_freq index).1 ≠ 0) :
    (set_cpu_freq_clock env s policy new_freq index).2.freq_index = s.freq_index ∧
    ∃ e, (set_cpu_freq_clock env s policy new_freq index).2.trace = s.trace ++ [e] ∧
      e ≠ Event.mutex_lock Mutex.l2bw_lock ∧
      ∀ old new cpu, e ≠ Event.cpufreq_notify_transition old new cpu CPUFREQ_POSTCHANGE := by
  unfold set_cpu_freq_clock at h ⊢
  by_cases hc : s.is_clk = true
  · simp only [hc, if_true] at h ⊢
    by_cases hr : env.clk_set_rate s.trace (s.cpu_clk policy.cpu) (cpu_clk_rate env s policy new_freq) = 0
    · simp [hr] at h
    · simp only [hr, if_false]
      exact ⟨rfl, _, rfl, by simp, by simp⟩
  · simp only [hc] at h ⊢
    exact ⟨rfl, _, rfl, by simp, by simp⟩


theorem foldl_max_ge_init (f : Nat → Nat) (l : List Nat) (init : Nat) :
    init ≤ l.foldl (fun index cpu => max index (f cpu)) init := by
  induction l generalizing init with
  | nil => exact Nat.le_refl _
  | cons a l ih => exact Nat.le_trans (Nat.le_max_left _ _) (ih (max init (f a)))

theorem foldl_max_ge_mem (f : Nat → Nat) (l : List Nat) (init : Nat) :
    ∀ cpu ∈ l, f cpu ≤ l.foldl (fun index cpu => max index (f cpu)) init := by
  induction l generalizing init with
  | nil => intro cpu h; cases h
  | cons a l ih =>
    intro cpu h
    rcases List.mem_cons.mp h with h | h
    · subst h
      exact Nat.le_trans (Nat.le_max_right _ _) (foldl_max_ge_init f l (max init (f cpu)))
    · exact ih (max init (f a)) cpu h

theorem foldl_max_attained (f : Nat → Nat) (l : List Nat) (init : Nat) :
    l.foldl (fun index cpu => max index (f cpu)) init = init ∨
    ∃ cpu ∈ l, f cpu = l.foldl (fun index cpu => max index (f cpu)) init := by
  induction l generalizing init with
  | nil => exact Or.inl rfl
  | cons a l ih =>
    rcases ih (max init (f a)) with h | ⟨c, hc, h⟩
    · rcases Nat.le_total init (f a) with hle | hle
      · right
        refine ⟨a, List.mem_cons_self _ _, ?_⟩
        simp only [List.foldl_cons]
        rw [h, Nat.max_eq_right hle]
      · left
        simp only [List.foldl_cons]
        rw [h, Nat.max_eq_left hle]
    · exact Or.inr ⟨c, List.mem_cons_of_mem _ hc, h⟩

@[simp] theorem l2bw_index_emit (s : State) (e : Event) (also_cpu : Option Nat) :
    l2bw_index (emit s e) also_cpu = l2bw_index s also_cpu := rfl

theorem update_l2_bw_trace (env : Env) (s : State) (also_cpu : Option Nat) :
    (update_l2_bw env s also_cpu).trace =
      s.trace ++ [Event.mutex_lock Mutex.l2bw_lock] ++
        (match s.l2_clk with
         | some clk =>
           [Event.clk_set_rate (some clk) ((rd s.l2_khz (l2bw_index s also_cpu) * 1000) % U32)]
         | none => []) ++
        (if (match s.l2_clk with
             | some clk =>
               env.clk_set_rate (s.trace ++ [Event.mutex_lock Mutex.l2bw_lock]) (some clk)
                 ((rd s.l2_khz (l2bw_index s also_cpu) * 1000) % U32)
             | none => 0) = 0 ∧ s.bus_client ≠ 0
         then [Event.msm_bus_scale_client_update_request s.bus_client (l2bw_index s also_cpu)]
         else []) ++
        [Event.mutex_unlock Mutex.l2bw_lock] := by
  unfold update_l2_bw
  simp only [l2bw_index_emit]
  cases hl : s.l2_clk with
  | none =>
    have : (emit s (Event.mutex_lock Mutex.l2bw_lock)).l2_clk = none := hl
    simp only [this]
    by_cases hb : s.bus_client = 0
    · simp [emit, hb]
    · simp [emit, hb]
  | some clk =>
    have : (emit s (Event.mutex_lock Mutex.l2bw_lock)).l2_clk = some clk := hl
    simp only [this]
    by_cases hr : env.clk_set_rate (s.trace ++ [Event.mutex_lock Mutex.l2bw_lock]) (some clk)
        ((rd s.l2_khz (l2bw_index s also_cpu) * 1000) % U32) = 0
    · by_cases hb : s.bus_client = 0
      · simp [emit, hb, hr]
      · simp [emit, hb, hr]
    · simp [emit, hr]

/-! ### Auxiliary facts: the ceiling attribute -/

theorem foldl_limits_ex_max_freq (l : List Nat) (s : State) :
    (l.foldl (fun s cpu =>
        emit s (Event.msm_cpufreq_set_freq_limits cpu MSM_CPUFREQ_NO_LIMIT s.ex_max_freq)) s).ex_max_freq
      = s.ex_max_freq := by
  induction l generalizing s with
  | nil => rfl
  | cons a l ih => simp only [List.foldl_cons]; rw [ih]; rfl

theorem int_of_size_nonneg (count : Nat) (h : count < 2 ^ 31) : int_of_size count = count := by
  unfold int_of_size U32
  have h1 : count % 2 ^ 32 = count := Nat.mod_eq_of_lt (by omega)
  rw [h1, if_pos h]

theorem foldl_limits_trace (l : List Nat) (s : State) :
    (l.foldl (fun s cpu =>
        emit s (Event.msm_cpufreq_set_freq_limits cpu MSM_CPUFREQ_NO_LIMIT s.ex_max_freq)) s).trace
      = s.trace ++ l.map (fun cpu =>
          Event.msm_cpufreq_set_freq_limits cpu MSM_CPUFREQ_NO_LIMIT s.ex_max_freq) := by
  induction l generalizing s with
  | nil => simp
  | cons a l ih =>
    simp only [List.foldl_cons, List.map_cons]
    rw [ih]
    simp [emit]

/-- The calls of a successful write to the ceiling attribute: one limit
update for each possible cpu, in order, then a single policy re-evaluation,
for the id the loop variable is left with. -/
theorem store_ex_max_freq_success_trace (env : Env) (s : State) (policy : cpufreq_policy)
    (buf : String) (count : Nat) (table : List cpufreq_frequency_table) (freq index : Nat)
    (ht : s.cpufreq_show_table policy.cpu = some table) (hs : env.sscanf_u buf = some freq)
    (hr : env.cpufreq_frequency_table_target policy table (freq % U32) CPUFREQ_RELATION_H =
      some index) :
    (store_ex_max_freq env s policy buf count).2.trace =
      s.trace ++ [Event.mutex_lock (Mutex.suspend_mutex policy.cpu)] ++
        s.cpu_possible.map (fun cpu =>
          Event.msm_cpufreq_set_freq_limits cpu MSM_CPUFREQ_NO_LIMIT
            (rd table index).frequency) ++
        [Event.cpufreq_update_policy env.nr_cpumask_bits,
         Event.mutex_unlock (Mutex.suspend_mutex policy.cpu)] := by
  unfold store_ex_max_freq
  simp only [ht, hs, hr, emit_trace, foldl_limits_trace]
  simp [emit]

/-! ### Auxiliary facts: the table builder -/

theorem rd_set_ne {α : Type} [Inhabited α] (l : List α) (i m : Nat) (x : α) (h : m ≠ i) :
    rd (l.set i x) m = rd l m := by
  unfold rd
  simp only [List.getD_eq_getElem?_getD]
  rw [List.getElem?_set_ne (Ne.symm h)]

theorem rd_set_eq {α : Type} [Inhabited α] (l : List α) (i : Nat) (x : α) (h : i < l.length) :
    rd (l.set i x) i = x := by
  unfold rd
  simp only [List.getD_eq_getElem?_getD]
  rw [List.getElem?_set_self h]
  rfl

theorem rd_replicate {α : Type} [Inhabited α] (n m : Nat) (x : α) (h : m < n) :
    rd (List.replicate n x) m = x := by
  unfold rd
  simp only [List.getD_eq_getElem?_getD]
  rw [List.getElem?_replicate]
  simp [h]

/-- The pass is left by `break` exactly when the cpu rate cannot be rounded or
is not above the frequency stored for the previous step. -/
theorem parse_body_fst (env : Env) (cpu_clk0 l2_clk : Option Nat) (data ports : List Nat)
    (num_paths i : Nat) (st : parse_vars) :
    (parse_body env cpu_clk0 l2_clk data ports num_paths i st).1 =
      (!IS_ERR_VALUE (cpu_round env cpu_clk0 data st.j) &&
       !(decide (i > 0) &&
         decide (cpu_round env cpu_clk0 data st.j / 1000 ≤ (rd st.freq_table (i - 1)).frequency))) := by
  unfold parse_body cpu_round
  by_cases h1 : IS_ERR_VALUE (env.clk_round_rate cpu_clk0 ((rd data st.j * 1000) % U32) % U32) = true
  · simp [h1]
  · by_cases h2 : (decide (i > 0) && decide (env.clk_round_rate cpu_clk0 ((rd data st.j * 1000) % U32) % U32 / 1000 ≤ (rd st.freq_table (i - 1)).frequency)) = true
    · simp only [h1, h2]; simp
    · simp only [h1, h2]; simp

theorem parse_body_reject (env : Env) (cpu_clk0 l2_clk : Option Nat) (data ports : List Nat)
    (num_paths i : Nat) (st : parse_vars)
    (h : (parse_body env cpu_clk0 l2_clk data ports num_paths i st).1 = false) :
    (parse_body env cpu_clk0 l2_clk data ports num_paths i st).2.freq_table = st.freq_table ∧
    (parse_body env cpu_clk0 l2_clk data ports num_paths i st).2.l2_khz = st.l2_khz := by
  unfold parse_body at h ⊢
  by_cases h1 : IS_ERR_VALUE (env.clk_round_rate cpu_clk0 ((rd data st.j * 1000) % U32) % U32) = true
  · simp [h1]
  · by_cases h2 : (decide (i > 0) && decide (env.clk_round_rate cpu_clk0 ((rd data st.j * 1000) % U32) % U32 / 1000 ≤ (rd st.freq_table (i - 1)).frequency)) = true
    · simp only [h1, h2]; simp
    · simp only [h1, h2] at h; simp at h

theorem parse_body_accept (env : Env) (cpu_clk0 l2_clk : Option Nat) (data ports : List Nat)
    (num_paths i : Nat) (st : parse_vars)
    (h : (parse_body env cpu_clk0 l2_clk data ports num_paths i st).1 = true)
    (hi : i < st.freq_table.length) :
    (parse_body env cpu_clk0 l2_clk data ports num_paths i st).2.j =
      st.j + cells_per_step l2_clk num_paths ∧
    (parse_body env cpu_clk0 l2_clk data ports num_paths i st).2.freq_table =
      st.freq_table.set i
        { index := i,
          frequency :=
            if l2_clk.isSome ∧ IS_ERR_VALUE (l2_round env l2_clk data (st.j + 1)) = true
            then CPUFREQ_ENTRY_INVALID else cpu_round env cpu_clk0 data st.j / 1000 } ∧
    (parse_body env cpu_clk0 l2_clk data ports num_paths i st).2.l2_khz =
      (if l2_clk.isSome ∧ IS_ERR_VALUE (l2_round env l2_clk data (st.j + 1)) = false
       then st.l2_khz.set i (l2_round env l2_clk data (st.j + 1) / 1000) else st.l2_khz) := by
  unfold parse_body at h ⊢
  unfold cells_per_step cpu_round l2_round
  by_cases h1 : IS_ERR_VALUE (env.clk_round_rate cpu_clk0 ((rd data st.j * 1000) % U32) % U32) = true
  · simp [h1] at h
  · by_cases h2 : (decide (i > 0) && decide (env.clk_round_rate cpu_clk0 ((rd data st.j * 1000) % U32) % U32 / 1000 ≤ (rd st.freq_table (i - 1)).frequency)) = true
    · simp only [h1, h2] at h; simp at h
    · simp only [h1, h2]
      cases l2_clk with
      | none =>
        by_cases hp : num_paths = 0
        · simp [hp]
        · simp [hp]
      | some c =>
        by_cases h3 : IS_ERR_VALUE (env.clk_round_rate (some c) ((rd data (st.j + 1) * 1000) % U32) % U32) = true
        · by_cases hp : num_paths = 0
          · simp [hp, h3, rd_set_eq _ _ _ hi]
          · simp [hp, h3, rd_set_eq _ _ _ hi]
        · by_cases hp : num_paths = 0
          · simp [hp, h3]
          · simp [hp, h3]

theorem parse_body_lengths (env : Env) (cpu_clk0 l2_clk : Option Nat) (data ports : List Nat)
    (num_paths i : Nat) (st : parse_vars) (hi : i < st.freq_table.length) :
    (parse_body env cpu_clk0 l2_clk data ports num_paths i st).2.freq_table.length =
      st.freq_table.length ∧
    (parse_body env cpu_clk0 l2_clk data ports num_paths i st).2.l2_khz.length =
      st.l2_khz.length := by
  cases hb : (parse_body env cpu_clk0 l2_clk data ports num_paths i st).1 with
  | false =>
    obtain ⟨h1, h2⟩ := parse_body_reject env cpu_clk0 l2_clk data ports num_paths i st hb
    rw [h1, h2]; exact ⟨rfl, rfl⟩
  | true =>
    obtain ⟨_, h1, h2⟩ := parse_body_accept env cpu_clk0 l2_clk data ports num_paths i st hb hi
    rw [h1, h2]
    refine ⟨List.length_set _ _ _, ?_⟩
    split
    · exact List.length_set _ _ _
    · rfl

theorem parse_body_frame (env : Env) (cpu_clk0 l2_clk : Option Nat) (data ports : List Nat)
    (num_paths i : Nat) (st : parse_vars) (hi : i < st.freq_table.length)
    (m : Nat) (hm : m ≠ i) :
    rd (parse_body env cpu_clk0 l2_clk data ports num_paths i st).2.freq_table m =
      rd st.freq_table m ∧
    rd (parse_body env cpu_clk0 l2_clk data ports num_paths i st).2.l2_khz m =
      rd st.l2_khz m := by
  cases hb : (parse_body env cpu_clk0 l2_clk data ports num_paths i st).1 with
  | false =>
    obtain ⟨h1, h2⟩ := parse_body_reject env cpu_clk0 l2_clk data ports num_paths i st hb
    rw [h1, h2]; exact ⟨rfl, rfl⟩
  | true =>
    obtain ⟨_, h1, h2⟩ := parse_body_accept env cpu_clk0 l2_clk data ports num_paths i st hb hi
    rw [h1, h2]
    refine ⟨rd_set_ne _ _ _ _ hm, ?_⟩
    split
    · exact rd_set_ne _ _ _ _ hm
    · rfl

/-- The loop never touches an entry below the `i` it starts from nor at or
above the `i` it stops at, keeps the lengths of the arrays and stops between
`i` and `i + n`. -/
theorem parse_loop_frame (env : Env) (cpu_clk0 l2_clk : Option Nat) (data ports : List Nat)
    (num_paths : Nat) (n : Nat) :
    ∀ (i : Nat) (st : parse_vars), i + n < st.freq_table.length + 1 →
      i ≤ (parse_loop env cpu_clk0 l2_clk data ports num_paths n i st).1 ∧
      (parse_loop env cpu_clk0 l2_clk data ports num_paths n i st).1 ≤ i + n ∧
      (parse_loop env cpu_clk0 l2_clk data ports num_paths n i st).2.freq_table.length =
        st.freq_table.length ∧
      (parse_loop env cpu_clk0 l2_clk data ports num_paths n i st).2.l2_khz.length =
        st.l2_khz.length ∧
      ∀ m, (m < i ∨ (parse_loop env cpu_clk0 l2_clk data ports num_paths n i st).1 ≤ m) →
        rd (parse_loop env cpu_clk0 l2_clk data ports num_paths n i st).2.freq_table m =
          rd st.freq_table m ∧
        rd (parse_loop env cpu_clk0 l2_clk data ports num_paths n i st).2.l2_khz m =
          rd st.l2_khz m := by
  induction n with
  | zero =>
    intro i st _
    simp [parse_loop]
  | succ n ih =>
    intro i st hlen
    have hi : i < st.freq_table.length := by omega
    obtain ⟨hl1, hl2⟩ := parse_body_lengths env cpu_clk0 l2_clk data ports num_paths i st hi
    cases hb : (parse_body env cpu_clk0 l2_clk data ports num_paths i st).1 with
    | false =>
      obtain ⟨h1, h2⟩ := parse_body_reject env cpu_clk0 l2_clk data ports num_paths i st hb
      simp only [parse_loop, hb]
      simp only [Bool.false_eq_true, if_false]
      refine ⟨Nat.le_refl _, by omega, hl1, hl2, ?_⟩
      intro m _
      rw [h1, h2]; exact ⟨rfl, rfl⟩
    | true =>
      simp only [parse_loop, hb, if_true]
      obtain ⟨g1, g2, g3, g4, g5⟩ := ih (i + 1)
        (parse_body env cpu_clk0 l2_clk data ports num_paths i st).2 (by rw [hl1]; omega)
      refine ⟨by omega, by omega, by rw [g3, hl1], by rw [g4, hl2], ?_⟩
      intro m hm
      have hmi : m ≠ i := by omega
      obtain ⟨f1, f2⟩ := parse_body_frame env cpu_clk0 l2_clk data ports num_paths i st hi m hmi
      obtain ⟨e1, e2⟩ := g5 m (by omega)
      exact ⟨by rw [e1, f1], by rw [e2, f2]⟩

/-- The row the loop leaves at an accepted step `m`: its index is `m`; its
frequency is the rounded cpu rate in kHz, or the invalid marker when the L2
rate of the row could not be rounded; `l2_khz[m]` is written only in the
first case. -/
theorem parse_loop_rows (env : Env) (cpu_clk0 l2_clk : Option Nat) (data ports : List Nat)
    (num_paths : Nat) (n : Nat) :
    ∀ (i : Nat) (st : parse_vars), st.j = i * cells_per_step l2_clk num_paths →
      i + n < st.freq_table.length + 1 → (l2_clk.isSome → i + n ≤ st.l2_khz.length) →
      ∀ m, i ≤ m → m < (parse_loop env cpu_clk0 l2_clk data ports num_paths n i st).1 →
        rd (parse_loop env cpu_clk0 l2_clk data ports num_paths n i st).2.freq_table m =
          { index := m,
            frequency :=
              if l2_clk.isSome ∧
                  IS_ERR_VALUE (l2_round env l2_clk data
                    (m * cells_per_step l2_clk num_paths + 1)) = true
              then CPUFREQ_ENTRY_INVALID
              else cpu_round env cpu_clk0 data (m * cells_per_step l2_clk num_paths) / 1000 } ∧
        rd (parse_loop env cpu_clk0 l2_clk data ports num_paths n i st).2.l2_khz m =
          (if l2_clk.isSome ∧
              IS_ERR_VALUE (l2_round env l2_clk data
                (m * cells_per_step l2_clk num_paths + 1)) = false
           then l2_round env l2_clk data (m * cells_per_step l2_clk num_paths + 1) / 1000
           else rd st.l2_khz m) := by
  induction n with
  | zero =>
    intro i st _ _ _ m h1 h2
    simp only [parse_loop] at h2
    omega
  | succ n ih =>
    intro i st hj hlen hlen2 m h1 h2
    have hi : i < st.freq_table.length := by omega
    obtain ⟨hl1, hl2⟩ := parse_body_lengths env cpu_clk0 l2_clk data ports num_paths i st hi
    cases hb : (parse_body env cpu_clk0 l2_clk data ports num_paths i st).1 with
    | false =>
      simp only [parse_loop, hb, Bool.false_eq_true, if_false] at h2
      omega
    | true =>
      obtain ⟨a1, a2, a3⟩ :=
        parse_body_accept env cpu_clk0 l2_clk data ports num_paths i st hb hi
      simp only [parse_loop, hb, if_true] at h2 ⊢
      have hj2 : (parse_body env cpu_clk0 l2_clk data ports num_paths i st).2.j =
          (i + 1) * cells_per_step l2_clk num_paths := by
        rw [a1, hj, Nat.add_mul, Nat.one_mul]
      by_cases hmi : m = i
      · subst hmi
        obtain ⟨_, _, _, _, g5⟩ := parse_loop_frame env cpu_clk0 l2_clk data ports num_paths n
          (m + 1) (parse_body env cpu_clk0 l2_clk data ports num_paths m st).2
          (by rw [hl1]; omega)
        obtain ⟨e1, e2⟩ := g5 m (Or.inl (Nat.lt_succ_self m))
        rw [e1, e2, a2, a3, rd_set_eq _ _ _ hi, hj]
        refine ⟨rfl, ?_⟩
        split
        · next hc => exact rd_set_eq _ _ _ (by have := hlen2 hc.1; omega)
        · rfl
      · obtain ⟨e1, e2⟩ := ih (i + 1)
          (parse_body env cpu_clk0 l2_clk data ports num_paths i st).2 hj2
          (by rw [hl1]; omega) (fun hc => by have := hlen2 hc; rw [hl2]; omega) m (by omega) h2
        rw [e1, e2]
        refine ⟨rfl, ?_⟩
        rw [(parse_body_frame env cpu_clk0 l2_clk data ports num_paths i st hi m hmi).2]

theorem parse_dt_alloc_ok (env : Env) (s : State) (nf num_paths : Nat)
    (h : (cpufreq_parse_dt_alloc env s nf num_paths).1 = 0) :
    (cpufreq_parse_dt_alloc env s nf num_paths).2.freq_table =
      List.replicate (nf + 1) default ∧
    (s.l2_clk.isSome → (cpufreq_parse_dt_alloc env s nf num_paths).2.l2_khz =
      List.replicate nf 0) ∧
    (cpufreq_parse_dt_alloc env s nf num_paths).2.l2_clk = s.l2_clk ∧
    (cpufreq_parse_dt_alloc env s nf num_paths).2.cpu_clk = s.cpu_clk := by
  have e2 : (-ENOMEM : Int) ≠ 0 := by decide
  unfold cpufreq_parse_dt_alloc at h ⊢
  by_cases c1 : (!env.devm_kzalloc 2) = true
  · rw [if_pos c1] at h; exact absurd h e2
  · rw [if_neg c1] at h ⊢
    dsimp only at h ⊢
    by_cases c2 : (s.l2_clk.isSome && !env.devm_kzalloc 3) = true
    · rw [if_pos c2] at h; exact absurd h e2
    · rw [if_neg c2] at h ⊢
      by_cases c3 : num_paths ≠ 0
      · rw [if_pos c3] at h ⊢
        by_cases c4 : (!env.devm_kzalloc 4 || !env.devm_kzalloc 5) = true
        · rw [if_pos c4] at h; exact absurd h e2
        · rw [if_neg c4]
          by_cases c5 : s.l2_clk.isSome = true
          · simp [c5]
          · simp [c5]
      · rw [if_neg c3]
        by_cases c5 : s.l2_clk.isSome = true
        · simp [c5]
        · simp [c5]

/-- What a successful return of the second half of `cpufreq_parse_dt` was
computed from. -/
theorem parse_dt_table_success (env : Env) (s : State) (dev : device)
    (num_cols num_paths : Nat) (ports : List Nat)
    (h : (cpufreq_parse_dt_table env s dev num_cols num_paths ports).1 = 0) :
    ∃ data s1, dev.tbl = some data ∧ data.length % num_cols = 0 ∧ data.length ≠ 0 ∧
      s1.freq_table = List.replicate (data.length / num_cols + 1) default ∧
      (s.l2_clk.isSome → s1.l2_khz = List.replicate (data.length / num_cols) 0) ∧
      s1.l2_clk = s.l2_clk ∧ s1.cpu_clk = s.cpu_clk ∧
      (cpufreq_parse_dt_table env s dev num_cols num_paths ports).2 =
        cpufreq_parse_dt_fill env s1 data ports num_paths (data.length / num_cols) := by
  have e1 : (-EINVAL : Int) ≠ 0 := by decide
  have e2 : (-ENOMEM : Int) ≠ 0 := by decide
  unfold cpufreq_parse_dt_table at h ⊢
  cases ht : dev.tbl with
  | none => simp only [ht] at h; exact absurd h e1
  | some data =>
    simp only [ht] at h ⊢
    by_cases c1 : data.length % num_cols ≠ 0 ∨ data.length = 0
    · rw [if_pos c1] at h; exact absurd h e1
    · rw [if_neg c1] at h ⊢
      by_cases c2 : (!env.devm_kzalloc 1) = true
      · rw [if_pos c2] at h; exact absurd h e2
      · rw [if_neg c2] at h ⊢
        by_cases c3 : dev.tbl_rc ≠ 0
        · rw [if_pos c3] at h; exact absurd h c3
        · rw [if_neg c3] at h ⊢
          by_cases c4 : (cpufreq_parse_dt_alloc env s (data.length / num_cols) num_paths).1 ≠ 0
          · rw [if_pos c4] at h; exact absurd h c4
          · rw [if_neg c4]
            simp only [not_or, not_not] at c1 c4
            obtain ⟨a1, a2, a3, a4⟩ := parse_dt_alloc_ok env s _ num_paths c4
            exact ⟨data, _, rfl, c1.1, c1.2, a1, a2, a3, a4, rfl⟩

/-- What a successful return of `cpufreq_parse_dt` was computed from. -/
theorem parse_dt_success (env : Env) (s : State) (dev : device)
    (h : (cpufreq_parse_dt env s dev).1 = 0) :
    ∃ data s1 ports, dev.tbl = some data ∧ data.length % dt_num_cols s dev = 0 ∧
      data.length ≠ 0 ∧
      s1.freq_table = List.replicate (data.length / dt_num_cols s dev + 1) default ∧
      (s.l2_clk.isSome → s1.l2_khz = List.replicate (data.length / dt_num_cols s dev) 0) ∧
      s1.l2_clk = s.l2_clk ∧ s1.cpu_clk = s.cpu_clk ∧
      (cpufreq_parse_dt env s dev).2 =
        cpufreq_parse_dt_fill env s1 data ports (dt_num_paths dev)
          (data.length / dt_num_cols s dev) := by
  have e1 : (-EINVAL : Int) ≠ 0 := by decide
  have e2 : (-ENOMEM : Int) ≠ 0 := by decide
  unfold cpufreq_parse_dt at h ⊢
  unfold dt_num_cols dt_num_paths
  cases hp : dev.ports with
  | none =>
    simp only [hp] at h ⊢
    obtain ⟨data, s1, a1, a2, a3, a4, a5, a6, a7, a8⟩ := parse_dt_table_success env s dev _ _ _ h
    exact ⟨data, s1, [], a1, a2, a3, a4, a5, a6, a7, a8⟩
  | some ports =>
    simp only [hp] at h ⊢
    by_cases c1 : ports.length % 2 ≠ 0
    · rw [if_pos c1] at h; exact absurd h e1
    · rw [if_neg c1] at h ⊢
      by_cases c2 : (!env.devm_kzalloc 0) = true
      · rw [if_pos c2] at h; exact absurd h e2
      · rw [if_neg c2] at h ⊢
        by_cases c3 : dev.ports_rc ≠ 0
        · rw [if_pos c3] at h; exact absurd h c3
        · rw [if_neg c3] at h ⊢
          obtain ⟨data, s1, a1, a2, a3, a4, a5, a6, a7, a8⟩ :=
            parse_dt_table_success env s dev _ _ _ h
          exact ⟨data, s1, ports, a1, a2, a3, a4, a5, a6, a7, a8⟩

/-- The table a successful `cpufreq_parse_dt` leaves: with `count` the number
of steps (`bus_bw.num_usecases`), `count` is at most the number of rows, entry
`count` is the end sentinel, and each step `m < count` has index `m` and, as
frequency, the rounded cpu rate of row `m` in kHz, or the invalid marker when
there is an L2 clock that could not round the L2 rate of row `m`; `l2_khz[m]`
is the rounded L2 rate in kHz, or the zero of the allocation in that case. -/
theorem parse_dt_rows (env : Env) (s : State) (dev : device) (data : List Nat)
    (hok : (cpufreq_parse_dt env s dev).1 = 0) (ht : dev.tbl = some data) :
    (cpufreq_parse_dt env s dev).2.bus_bw_num_usecases ≤ data.length / dt_num_cols s dev ∧
    rd (cpufreq_parse_dt env s dev).2.freq_table
        (cpufreq_parse_dt env s dev).2.bus_bw_num_usecases =
      { index := (cpufreq_parse_dt env s dev).2.bus_bw_num_usecases,
        frequency := CPUFREQ_TABLE_END } ∧
    ∀ m, m < (cpufreq_parse_dt env s dev).2.bus_bw_num_usecases →
      rd (cpufreq_parse_dt env s dev).2.freq_table m =
        { index := m,
          frequency :=
            if s.l2_clk.isSome ∧
                IS_ERR_VALUE (l2_round env s.l2_clk data
                  (m * cells_per_step s.l2_clk (dt_num_paths dev) + 1)) = true
            then CPUFREQ_ENTRY_INVALID
            else cpu_round env (s.cpu_clk 0) data
              (m * cells_per_step s.l2_clk (dt_num_paths dev)) / 1000 } ∧
      (s.l2_clk.isSome →
        rd (cpufreq_parse_dt env s dev).2.l2_khz m =
          (if IS_ERR_VALUE (l2_round env s.l2_clk data
                (m * cells_per_step s.l2_clk (dt_num_paths dev) + 1)) = false
           then l2_round env s.l2_clk data
             (m * cells_per_step s.l2_clk (dt_num_paths dev) + 1) / 1000
           else 0)) := by
  obtain ⟨data1, s1, ports, a1, _, _, a4, a5, a6, a7, a8⟩ := parse_dt_success env s dev hok
  have hd : data1 = data := by rw [ht] at a1; exact (Option.some.inj a1).symm
  subst hd
  rw [a8]
  unfold cpufreq_parse_dt_fill
  simp only [a6, a7]
  have hlen : (parse_init s1).freq_table.length = data1.length / dt_num_cols s dev + 1 := by
    show s1.freq_table.length = _
    rw [a4, List.length_replicate]
  have hlen2 : s.l2_clk.isSome → (parse_init s1).l2_khz.length = data1.length / dt_num_cols s dev := by
    intro hc
    show s1.l2_khz.length = _
    rw [a5 hc, List.length_replicate]
  obtain ⟨_, f2, f3, _, f5⟩ := parse_loop_frame env (s.cpu_clk 0) s.l2_clk data1 ports
    (dt_num_paths dev) (data1.length / dt_num_cols s dev) 0 (parse_init s1) (by rw [hlen]; omega)
  refine ⟨by omega, ?_, ?_⟩
  · exact rd_set_eq _ _ _ (by rw [f3, hlen]; omega)
  · intro m hm
    obtain ⟨r1, r2⟩ := parse_loop_rows env (s.cpu_clk 0) s.l2_clk data1 ports
      (dt_num_paths dev) (data1.length / dt_num_cols s dev) 0 (parse_init s1)
      (by simp [parse_init]) (by rw [hlen]; omega)
      (fun hc => by rw [hlen2 hc]; omega) m (Nat.zero_le m) hm
    refine ⟨?_, ?_⟩
    · rw [rd_set_ne _ _ _ _ (Nat.ne_of_lt hm), r1]
    · intro hc
      rw [r2]
      have hz : rd (parse_init s1).l2_khz m = 0 := by
        show rd s1.l2_khz m = 0
        rw [a5 hc]
        by_cases hmn : m < data1.length / dt_num_cols s dev
        · exact rd_replicate _ _ _ hmn
        · omega
      rw [hz]
      by_cases he : IS_ERR_VALUE (l2_round env s.l2_clk data1
          (m * cells_per_step s.l2_clk (dt_num_paths dev) + 1)) = false
      · simp [hc, he]
      · simp [hc, he]

theorem parse_loop_break (env : Env) (cpu_clk0 l2_clk : Option Nat) (data ports : List Nat)
    (num_paths n i : Nat) (st : parse_vars)
    (h : (parse_body env cpu_clk0 l2_clk data ports num_paths i st).1 = false) :
    (parse_loop env cpu_clk0 l2_clk data ports num_paths n i st).1 = i := by
  cases n with
  | zero => rfl
  | succ n => simp only [parse_loop, h, Bool.false_eq_true, if_false]

/-- Every step the loop accepts had a cpu rate that the clock could round, and
one above the frequency stored for the step before it. -/
theorem parse_loop_accepted (env : Env) (cpu_clk0 l2_clk : Option Nat) (data ports : List Nat)
    (num_paths : Nat) (n : Nat) :
    ∀ (i : Nat) (st : parse_vars), st.j = i * cells_per_step l2_clk num_paths →
      i + n < st.freq_table.length + 1 →
      ∀ m, i ≤ m → m < (parse_loop env cpu_clk0 l2_clk data ports num_paths n i st).1 →
        IS_ERR_VALUE (cpu_round env cpu_clk0 data (m * cells_per_step l2_clk num_paths)) = false ∧
        (0 < m →
          (rd (parse_loop env cpu_clk0 l2_clk data ports num_paths n i st).2.freq_table
              (m - 1)).frequency <
            cpu_round env cpu_clk0 data (m * cells_per_step l2_clk num_paths) / 1000) := by
  induction n with
  | zero =>
    intro i st _ _ m h1 h2
    simp only [parse_loop] at h2
    omega
  | succ n ih =>
    intro i st hj hlen m h1 h2
    have hi : i < st.freq_table.length := by omega
    obtain ⟨hl1, _⟩ := parse_body_lengths env cpu_clk0 l2_clk data ports num_paths i st hi
    cases hb : (parse_body env cpu_clk0 l2_clk data ports num_paths i st).1 with
    | false =>
      simp only [parse_loop, hb, Bool.false_eq_true, if_false] at h2
      omega
    | true =>
      obtain ⟨a1, _, _⟩ :=
        parse_body_accept env cpu_clk0 l2_clk data ports num_paths i st hb hi
      have hfst := parse_body_fst env cpu_clk0 l2_clk data ports num_paths i st
      rw [hb, hj] at hfst
      simp only [parse_loop, hb, if_true] at h2 ⊢
      have hj2 : (parse_body env cpu_clk0 l2_clk data ports num_paths i st).2.j =
          (i + 1) * cells_per_step l2_clk num_paths := by
        rw [a1, hj, Nat.add_mul, Nat.one_mul]
      by_cases hmi : m = i
      · subst hmi
        obtain ⟨_, _, _, _, g5⟩ := parse_loop_frame env cpu_clk0 l2_clk data ports num_paths n
          (m + 1) (parse_body env cpu_clk0 l2_clk data ports num_paths m st).2
          (by rw [hl1]; omega)
        have hf := Eq.symm hfst
        simp only [Bool.and_eq_true, Bool.not_eq_true', Bool.and_eq_false_iff,
          decide_eq_false_iff_not, decide_eq_true_eq] at hf
        refine ⟨hf.1, ?_⟩
        intro hm0
        obtain ⟨e1, _⟩ := g5 (m - 1) (Or.inl (by omega))
        rw [e1, (parse_body_frame env cpu_clk0 l2_clk data ports num_paths m st hi (m - 1)
          (by omega)).1]
        rcases hf.2 with h | h
        · omega
        · omega
      · exact ih (i + 1) (parse_body env cpu_clk0 l2_clk data ports num_paths i st).2 hj2
          (by rw [hl1]; omega) m (by omega) h2

/-- When the loop stops before the last row, the row it stops at has a cpu
rate that the clock cannot round, or one not above the frequency stored for
the step before it. -/
theorem parse_loop_stop (env : Env) (cpu_clk0 l2_clk : Option Nat) (data ports : List Nat)
    (num_paths : Nat) (n : Nat) :
    ∀ (i : Nat) (st : parse_vars), st.j = i * cells_per_step l2_clk num_paths →
      i + n < st.freq_table.length + 1 →
      (parse_loop env cpu_clk0 l2_clk data ports num_paths n i st).1 < i + n →
        IS_ERR_VALUE (cpu_round env cpu_clk0 data
          ((parse_loop env cpu_clk0 l2_clk data ports num_paths n i st).1 *
            cells_per_step l2_clk num_paths)) = true ∨
        (0 < (parse_loop env cpu_clk0 l2_clk data ports num_paths n i st).1 ∧
          cpu_round env cpu_clk0 data
            ((parse_loop env cpu_clk0 l2_clk data ports num_paths n i st).1 *
              cells_per_step l2_clk num_paths) / 1000 ≤
          (rd (parse_loop env cpu_clk0 l2_clk data ports num_paths n i st).2.freq_table
            ((parse_loop env cpu_clk0 l2_clk data ports num_paths n i st).1 - 1)).frequency) := by
  induction n with
  | zero =>
    intro i st _ _ h
    simp only [parse_loop] at h
    omega
  | succ n ih =>
    intro i st hj hlen h
    have hi : i < st.freq_table.length := by omega
    obtain ⟨hl1, _⟩ := parse_body_lengths env cpu_clk0 l2_clk data ports num_paths i st hi
    have hfst := parse_body_fst env cpu_clk0 l2_clk data ports num_paths i st
    cases hb : (parse_body env cpu_clk0 l2_clk data ports num_paths i st).1 with
    | false =>
      obtain ⟨r1, _⟩ := parse_body_reject env cpu_clk0 l2_clk data ports num_paths i st hb
      rw [hb, hj] at hfst
      simp only [parse_loop, hb, Bool.false_eq_true, if_false]
      rw [r1]
      have hf := Eq.symm hfst
      simp only [Bool.and_eq_false_iff, Bool.not_eq_false', Bool.and_eq_true,
        decide_eq_true_eq] at hf
      rcases hf with h1 | h1
      · exact Or.inl h1
      · exact Or.inr h1
    | true =>
      obtain ⟨a1, _, _⟩ :=
        parse_body_accept env cpu_clk0 l2_clk data ports num_paths i st hb hi
      simp only [parse_loop, hb, if_true] at h ⊢
      have hj2 : (parse_body env cpu_clk0 l2_clk data ports num_paths i st).2.j =
          (i + 1) * cells_per_step l2_clk num_paths := by
        rw [a1, hj, Nat.add_mul, Nat.one_mul]
      exact ih (i + 1) (parse_body env cpu_clk0 l2_clk data ports num_paths i st).2 hj2
        (by rw [hl1]; omega) (by omega)

/-- Every step of the table a successful `cpufreq_parse_dt` leaves had a cpu
rate that the clock could round, above the frequency stored for the step
before it. -/
theorem parse_dt_accepted (env : Env) (s : State) (dev : device) (data : List Nat)
    (hok : (cpufreq_parse_dt env s dev).1 = 0) (ht : dev.tbl = some data) :
    ∀ m, m < (cpufreq_parse_dt env s dev).2.bus_bw_num_usecases →
      IS_ERR_VALUE (cpu_round env (s.cpu_clk 0) data
        (m * cells_per_step s.l2_clk (dt_num_paths dev))) = false ∧
      (0 < m →
        (rd (cpufreq_parse_dt env s dev).2.freq_table (m - 1)).frequency <
          cpu_round env (s.cpu_clk 0) data
            (m * cells_per_step s.l2_clk (dt_num_paths dev)) / 1000) := by
  obtain ⟨data1, s1, ports, a1, _, _, a4, _, a6, a7, a8⟩ := parse_dt_success env s dev hok
  have hd : data1 = data := by rw [ht] at a1; exact (Option.some.inj a1).symm
  subst hd
  rw [a8]
  unfold cpufreq_parse_dt_fill
  simp only [a6, a7]
  have hlen : (parse_init s1).freq_table.length = data1.length / dt_num_cols s dev + 1 := by
    show s1.freq_table.length = _
    rw [a4, List.length_replicate]
  intro m hm
  obtain ⟨r1, r2⟩ := parse_loop_accepted env (s.cpu_clk 0) s.l2_clk data1 ports
    (dt_num_paths dev) (data1.length / dt_num_cols s dev) 0 (parse_init s1)
    (by simp [parse_init]) (by rw [hlen]; omega) m (Nat.zero_le m) hm
  refine ⟨r1, fun hm0 => ?_⟩
  rw [rd_set_ne _ _ _ _ (by omega)]
  exact r2 hm0

/-- When a successful `cpufreq_parse_dt` leaves fewer steps than the property
has rows, the first row left out has a cpu rate that the clock cannot round,
or one not above the frequency stored for the last step. -/
theorem parse_dt_stop (env : Env) (s : State) (dev : device) (data : List Nat)
    (hok : (cpufreq_parse_dt env s dev).1 = 0) (ht : dev.tbl = some data)
    (hlt : (cpufreq_parse_dt env s dev).2.bus_bw_num_usecases <
      data.length / dt_num_cols s dev) :
    IS_ERR_VALUE (cpu_round env (s.cpu_clk 0) data
      ((cpufreq_parse_dt env s dev).2.bus_bw_num_usecases *
        cells_per_step s.l2_clk (dt_num_paths dev))) = true ∨
    (0 < (cpufreq_parse_dt env s dev).2.bus_bw_num_usecases ∧
      cpu_round env (s.cpu_clk 0) data
        ((cpufreq_parse_dt env s dev).2.bus_bw_num_usecases *
          cells_per_step s.l2_clk (dt_num_paths dev)) / 1000 ≤
      (rd (cpufreq_parse_dt env s dev).2.freq_table
        ((cpufreq_parse_dt env s dev).2.bus_bw_num_usecases - 1)).frequency) := by
  obtain ⟨data1, s1, ports, a1, _, _, a4, _, a6, a7, a8⟩ := parse_dt_success env s dev hok
  have hd : data1 = data := by rw [ht] at a1; exact (Option.some.inj a1).symm
  subst hd
  rw [a8] at hlt ⊢
  unfold cpufreq_parse_dt_fill at hlt ⊢
  simp only [a6, a7] at hlt ⊢
  have hlen : (parse_init s1).freq_table.length = data1.length / dt_num_cols s dev + 1 := by
    show s1.freq_table.length = _
    rw [a4, List.length_replicate]
  rcases parse_loop_stop env (s.cpu_clk 0) s.l2_clk data1 ports
    (dt_num_paths dev) (data1.length / dt_num_cols s dev) 0 (parse_init s1)
    (by simp [parse_init]) (by rw [hlen]; omega) (by omega) with h | ⟨h1, h2⟩
  · exact Or.inl h
  · refine Or.inr ⟨h1, ?_⟩
    rw [rd_set_ne _ _ _ _ (by omega)]
    exact h2

theorem cpu_round_khz_lt_invalid (env : Env) (clk : Option Nat) (data : List Nat) (j : Nat) :
    cpu_round env clk data j / 1000 < CPUFREQ_ENTRY_INVALID := by
  have h : cpu_round env clk data j < 2 ^ 32 := by
    unfold cpu_round U32
    exact Nat.mod_lt _ (by decide)
  unfold CPUFREQ_ENTRY_INVALID
  omega

/-- The steps of the table are in strictly increasing order of the frequency
stored for them. -/
theorem parse_dt_stored_increasing (env : Env) (s : State) (dev : device) (data : List Nat)
    (hok : (cpufreq_parse_dt env s dev).1 = 0) (ht : dev.tbl = some data) :
    ∀ m, 0 < m → m < (cpufreq_parse_dt env s dev).2.bus_bw_num_usecases →
      (rd (cpufreq_parse_dt env s dev).2.freq_table (m - 1)).frequency <
        (rd (cpufreq_parse_dt env s dev).2.freq_table m).frequency := by
  intro m hm0 hm
  obtain ⟨_, _, hrows⟩ := parse_dt_rows env s dev data hok ht
  obtain ⟨_, h2⟩ := parse_dt_accepted env s dev data hok ht m hm
  rw [(hrows m hm).1]
  have h3 := h2 hm0
  have h4 := cpu_round_khz_lt_invalid env (s.cpu_clk 0) data
    (m * cells_per_step s.l2_clk (dt_num_paths dev))
  dsimp only
  split
  · omega
  · exact h3

/-- As long as no L2 rate fails to round, the loop stops where the
specification says: at the first row whose rounded cpu rate is an error or is
not above the rounded cpu rate of the step before it. -/
theorem parse_loop_count_spec (env : Env) (cpu_clk0 l2_clk : Option Nat) (data ports : List Nat)
    (num_paths : Nat)
    (hno : ∀ m, l2_clk.isSome →
      IS_ERR_VALUE (l2_round env l2_clk data (m * cells_per_step l2_clk num_paths + 1)) = false)
    (n : Nat) :
    ∀ (i : Nat) (st : parse_vars), st.j = i * cells_per_step l2_clk num_paths →
      i + n < st.freq_table.length + 1 →
      (parse_loop env cpu_clk0 l2_clk data ports num_paths n i st).1 =
        i + spec_accepted_count env cpu_clk0
          (if i = 0 then none else some (rd st.freq_table (i - 1)).frequency)
          (cpu_cells data (cells_per_step l2_clk num_paths) i n) := by
  induction n with
  | zero =>
    intro i st _ _
    simp [parse_loop, cpu_cells, spec_accepted_count]
  | succ n ih =>
    intro i st hj hlen
    have hi : i < st.freq_table.length := by omega
    obtain ⟨hl1, _⟩ := parse_body_lengths env cpu_clk0 l2_clk data ports num_paths i st hi
    have hfst := parse_body_fst env cpu_clk0 l2_clk data ports num_paths i st
    rw [hj] at hfst
    have hcr : env.clk_round_rate cpu_clk0
        ((rd data (i * cells_per_step l2_clk num_paths) * 1000) % U32) % U32 =
        cpu_round env cpu_clk0 data (i * cells_per_step l2_clk num_paths) := rfl
    simp only [cpu_cells, spec_accepted_count, hcr]
    cases hb : (parse_body env cpu_clk0 l2_clk data ports num_paths i st).1 with
    | false =>
      rw [parse_loop_break env cpu_clk0 l2_clk data ports num_paths (n + 1) i st hb]
      rw [hb] at hfst
      have hf := Eq.symm hfst
      simp only [Bool.and_eq_false_iff, Bool.not_eq_false', Bool.and_eq_true,
        decide_eq_true_eq] at hf
      rcases hf with h1 | ⟨h1, h2⟩
      · simp [h1]
      · have hi0 : i ≠ 0 := by omega
        by_cases he : IS_ERR_VALUE
            (cpu_round env cpu_clk0 data (i * cells_per_step l2_clk num_paths)) = true
        · simp [he]
        · simp [he, hi0, h2]
    | true =>
      obtain ⟨a1, a2, _⟩ :=
        parse_body_accept env cpu_clk0 l2_clk data ports num_paths i st hb hi
      rw [hb] at hfst
      have hf := Eq.symm hfst
      simp only [Bool.and_eq_true, Bool.not_eq_true', Bool.and_eq_false_iff,
        decide_eq_false_iff_not, decide_eq_true_eq] at hf
      have hj2 : (parse_body env cpu_clk0 l2_clk data ports num_paths i st).2.j =
          (i + 1) * cells_per_step l2_clk num_paths := by
        rw [a1, hj, Nat.add_mul, Nat.one_mul]
      have hrow : (rd (parse_body env cpu_clk0 l2_clk data ports num_paths i st).2.freq_table
          i).frequency =
          cpu_round env cpu_clk0 data (i * cells_per_step l2_clk num_paths) / 1000 := by
        rw [a2, rd_set_eq _ _ _ hi, hj]
        dsimp only
        rw [if_neg]
        rintro ⟨hc, he⟩
        rw [hno i hc] at he
        exact Bool.noConfusion he
      simp only [parse_loop, hb, if_true]
      rw [ih (i + 1) _ hj2 (by rw [hl1]; omega)]
      simp only [Nat.add_sub_cancel, Nat.succ_ne_zero, if_false, hrow, hf.1]
      by_cases hi0 : i = 0
      · simp [hi0]
      · have h2 : ¬ cpu_round env cpu_clk0 data (i * cells_per_step l2_clk num_paths) / 1000 ≤
            (rd st.freq_table (i - 1)).frequency := by
          rcases hf.2 with h | h
          · omega
          · exact h
        simp [hi0, h2]; omega

/-- When every L2 rate of the property can be rounded (in particular when
there is no L2 clock), and a port property that is present names at least one
path (so that the loop reads the rows of `num_cols` cells one by one), the
number of steps of the table is the count of the specification over the cpu
cells of the rows. -/
theorem parse_dt_count_spec (env : Env) (s : State) (dev : device) (data : List Nat)
    (hok : (cpufreq_parse_dt env s dev).1 = 0) (ht : dev.tbl = some data)
    (hports : dev.ports.isSome → dt_num_paths dev ≠ 0)
    (hno : ∀ m, s.l2_clk.isSome →
      IS_ERR_VALUE (l2_round env s.l2_clk data (m * dt_num_cols s dev + 1)) = false) :
    (cpufreq_parse_dt env s dev).2.bus_bw_num_usecases =
      spec_accepted_count env (s.cpu_clk 0) none
        (cpu_cells data (dt_num_cols s dev) 0 (data.length / dt_num_cols s dev)) := by
  have hc : dt_num_cols s dev = cells_per_step s.l2_clk (dt_num_paths dev) := by
    unfold dt_num_cols cells_per_step
    cases hp : dev.ports with
    | none =>
      have h0 : dt_num_paths dev = 0 := by unfold dt_num_paths; rw [hp]
      rw [h0]
      cases s.l2_clk <;> simp
    | some ps =>
      have h1 : dt_num_paths dev ≠ 0 := hports (by rw [hp]; rfl)
      cases s.l2_clk <;> simp [h1]
  rw [hc] at hno
  rw [show cpu_cells data (dt_num_cols s dev) 0 (data.length / dt_num_cols s dev) =
    cpu_cells data (cells_per_step s.l2_clk (dt_num_paths dev)) 0
      (data.length / dt_num_cols s dev) from by rw [← hc]]
  obtain ⟨data1, s1, ports, a1, _, _, a4, _, a6, a7, a8⟩ := parse_dt_success env s dev hok
  have hd : data1 = data := by rw [ht] at a1; exact (Option.some.inj a1).symm
  subst hd
  rw [a8]
  unfold cpufreq_parse_dt_fill
  simp only [a6, a7]
  have hlen : (parse_init s1).freq_table.length = data1.length / dt_num_cols s dev + 1 := by
    show s1.freq_table.length = _
    rw [a4, List.length_replicate]
  rw [parse_loop_count_spec env (s.cpu_clk 0) s.l2_clk data1 ports (dt_num_paths dev) hno
    (data1.length / dt_num_cols s dev) 0 (parse_init s1) (by simp [parse_init])
    (by rw [hlen]; omega)]
  simp

/-! ### Auxiliary facts: suspend and resume -/

theorem foldl_suspend_flag (l : List Nat) :
    ∀ (s : State) (c : Nat),
      (l.foldl suspend_step s).device_suspended c =
        if c ∈ l then 1 else s.device_suspended c := by
  induction l with
  | nil => intro s c; simp
  | cons a l ih =>
    intro s c
    simp only [List.foldl_cons]
    rw [ih]
    by_cases hl : c ∈ l
    · simp [hl]
    · by_cases hca : c = a
      · subst hca
        simp [hl, suspend_step, emit]
      · simp [hl, hca, suspend_step, emit, Function.update_noteq hca]

theorem foldl_suspend_possible (l : List Nat) :
    ∀ (s : State), (l.foldl suspend_step s).cpu_possible = s.cpu_possible := by
  induction l with
  | nil => intro s; rfl
  | cons a l ih => intro s; simp only [List.foldl_cons]; rw [ih]; rfl

theorem foldl_clear_flag (l : List Nat) :
    ∀ (s : State) (c : Nat),
      (l.foldl resume_clear_step s).device_suspended c =
        if c ∈ l then 0 else s.device_suspended c := by
  induction l with
  | nil => intro s c; simp
  | cons a l ih =>
    intro s c
    simp only [List.foldl_cons]
    rw [ih]
    by_cases hl : c ∈ l
    · simp [hl]
    · by_cases hca : c = a
      · subst hca
        simp [hl, resume_clear_step]
      · simp [hl, hca, resume_clear_step, Function.update_noteq hca]

theorem foldl_clear_frame (l : List Nat) :
    ∀ (s : State), (l.foldl resume_clear_step s).trace = s.trace ∧
      (l.foldl resume_clear_step s).cpu_online = s.cpu_online := by
  induction l with
  | nil => intro s; exact ⟨rfl, rfl⟩
  | cons a l ih =>
    intro s
    simp only [List.foldl_cons]
    obtain ⟨h1, h2⟩ := ih (resume_clear_step s a)
    rw [h1, h2]
    exact ⟨rfl, rfl⟩

theorem resume_check_step_spec (env : Env) (s : State) (cpu : Nat) :
    (resume_check_step env s cpu).device_suspended = s.device_suspended ∧
    (resume_check_step env s cpu).trace =
      s.trace ++ (if policy_violated (env.cpufreq_get_policy s.trace cpu) then
        [Event.cpufreq_update_policy cpu] else []) := by
  unfold resume_check_step policy_violated
  by_cases h1 : (env.cpufreq_get_policy s.trace cpu).1 = 0
  · by_cases h2 : (env.cpufreq_get_policy s.trace cpu).2.cur ≤
        (env.cpufreq_get_policy s.trace cpu).2.max ∧
        (env.cpufreq_get_policy s.trace cpu).2.cur ≥ (env.cpufreq_get_policy s.trace cpu).2.min
    · simp [h1, h2.1, h2.2]
    · have h3 : ¬ ((env.cpufreq_get_policy s.trace cpu).2.min ≤
          (env.cpufreq_get_policy s.trace cpu).2.cur ∧
          (env.cpufreq_get_policy s.trace cpu).2.cur ≤
          (env.cpufreq_get_policy s.trace cpu).2.max) := fun h => h2 ⟨h.2, h.1⟩
      have h4 : (env.cpufreq_get_policy s.trace cpu).2.cur <
          (env.cpufreq_get_policy s.trace cpu).2.min ∨
          (env.cpufreq_get_policy s.trace cpu).2.max <
          (env.cpufreq_get_policy s.trace cpu).2.cur := by omega
      simp only [h1, ne_eq, not_true_eq_false, if_false, h2, emit]
      simp [h3, h4]
  · simp [h1]

theorem foldl_check_spec (env : Env) (l : List Nat) :
    ∀ (s : State),
      (l.foldl (resume_check_step env) s).device_suspended = s.device_suspended ∧
      (l.foldl (resume_check_step env) s).trace =
        s.trace ++ spec_resume_updates env s.trace l := by
  induction l with
  | nil => intro s; simp [spec_resume_updates]
  | cons a l ih =>
    intro s
    simp only [List.foldl_cons, spec_resume_updates]
    obtain ⟨h1, h2⟩ := ih (resume_check_step env s a)
    obtain ⟨g1, g2⟩ := resume_check_step_spec env s a
    rw [h1, h2, g1, g2]
    refine ⟨rfl, ?_⟩
    by_cases hv : policy_violated (env.cpufreq_get_policy s.trace a) = true
    · simp [hv]
    · simp [hv]

theorem spec_resume_updates_mem (env : Env) (l : List Nat) :
    ∀ (tr : List Event) (e : Event), e ∈ spec_resume_updates env tr l →
      ∃ cpu ∈ l, e = Event.cpufreq_update_policy cpu := by
  induction l with
  | nil => intro tr e h; simp [spec_resume_updates] at h
  | cons a l ih =>
    intro tr e h
    simp only [spec_resume_updates] at h
    split at h
    · rcases List.mem_cons.mp h with h | h
      · exact ⟨a, List.mem_cons_self _ _, h⟩
      · obtain ⟨c, hc, he⟩ := ih _ e h
        exact ⟨c, List.mem_cons_of_mem _ hc, he⟩
    · obtain ⟨c, hc, he⟩ := ih _ e h
      exact ⟨c, List.mem_cons_of_mem _ hc, he⟩

theorem spec_resume_updates_pure (env : Env) (pol : Nat → Int × cpufreq_policy)
    (hp : ∀ tr cpu, env.cpufreq_get_policy tr cpu = pol cpu) (l : List Nat) :
    ∀ (tr : List Event), spec_resume_updates env tr l =
      (l.filter (fun cpu => policy_violated (pol cpu))).map Event.cpufreq_update_policy := by
  induction l with
  | nil => intro tr; rfl
  | cons a l ih =>
    intro tr
    simp only [spec_resume_updates, hp, List.filter_cons]
    by_cases hv : policy_violated (pol a) = true
    · simp [hv, ih]
    · simp [hv, ih]

/-! ### Auxiliary facts: a successful transition -/

theorem prechange_frame (s : State) (policy : cpufreq_policy) (f : Nat) :
    (set_cpu_freq_prechange s policy f).cpu_online = s.cpu_online ∧
    (set_cpu_freq_prechange s policy f).l2_clk = s.l2_clk ∧
    (set_cpu_freq_prechange s policy f).l2_khz = s.l2_khz ∧
    (set_cpu_freq_prechange s policy f).bus_client = s.bus_client := by
  unfold set_cpu_freq_prechange emit; split <;> exact ⟨rfl, rfl, rfl, rfl⟩

theorem update_l2_bw_freq_index (env : Env) (s : State) (also_cpu : Option Nat) :
    (update_l2_bw env s also_cpu).freq_index = s.freq_index := by
  unfold update_l2_bw
  simp only [l2bw_index_emit]
  cases hl : s.l2_clk with
  | none =>
    have : (emit s (Event.mutex_lock Mutex.l2bw_lock)).l2_clk = none := hl
    simp only [this]
    by_cases hb : s.bus_client = 0
    · simp [emit, hb]
    · simp [emit, hb]
  | some clk =>
    have : (emit s (Event.mutex_lock Mutex.l2bw_lock)).l2_clk = some clk := hl
    simp only [this]
    by_cases hr : env.clk_set_rate (s.trace ++ [Event.mutex_lock Mutex.l2bw_lock]) (some clk)
        ((rd s.l2_khz (l2bw_index s also_cpu) * 1000) % U32) = 0
    · by_cases hb : s.bus_client = 0
      · simp [emit, hb, hr]
      · simp [emit, hb, hr]
    · simp [emit, hr]

/-- In clock mode, when the clock-set call returns `0`, the middle part of
`set_cpu_freq` records the call, writes `freq_index` and runs `update_l2_bw`
on the state `S` so obtained. -/
theorem set_cpu_freq_clock_ok (env : Env) (s : State) (policy : cpufreq_policy)
    (new_freq index : Nat) (hc : s.is_clk = true)
    (h : (set_cpu_freq_clock env s policy new_freq index).1 = 0) :
    ∃ S : State,
      (set_cpu_freq_clock env s policy new_freq index).2 = update_l2_bw env S none ∧
      S.trace = s.trace ++ [Event.clk_set_rate (s.cpu_clk policy.cpu)
        (cpu_clk_rate env s policy new_freq)] ∧
      S.freq_index = Function.update s.freq_index policy.cpu index ∧
      S.cpu_online = s.cpu_online ∧ S.l2_clk = s.l2_clk ∧ S.l2_khz = s.l2_khz ∧
      S.bus_client = s.bus_client := by
  unfold set_cpu_freq_clock at h ⊢
  simp only [hc, if_true] at h ⊢
  by_cases hr : env.clk_set_rate s.trace (s.cpu_clk policy.cpu)
      (cpu_clk_rate env s policy new_freq) = 0
  · simp only [hr, if_true]
    exact ⟨_, rfl, rfl, rfl, rfl, rfl, rfl, rfl⟩
  · rw [if_neg hr] at h
    exact absurd h hr

/-- On the path where the request is neither a no-op nor refused,
`msm_cpufreq_target` is the run of the work item from `target_work_state`,
followed by `wait_for_completion`, the reading of the status and the unlock. -/
theorem target_reaches_work (env : Env) (s : State) (policy : cpufreq_policy)
    (target_freq relation idx : Nat) (hne : target_freq ≠ policy.cur)
    (hsus : s.device_suspended policy.cpu = 0)
    (hres : env.cpufreq_frequency_table_target policy
      ((s.cpufreq_show_table policy.cpu).getD []) target_freq relation = some idx) :
    msm_cpufreq_target env s policy target_freq relation =
      (((emit (set_cpu_work env (target_work_state s policy idx) policy.cpu)
          (Event.wait_for_completion policy.cpu)).cpufreq_work policy.cpu).status,
        emit (emit (set_cpu_work env (target_work_state s policy idx) policy.cpu)
          (Event.wait_for_completion policy.cpu))
          (Event.mutex_unlock (Mutex.suspend_mutex policy.cpu))) := by
  unfold msm_cpufreq_target target_work_state
  have h2 : ¬ ((emit s (Event.mutex_lock (Mutex.suspend_mutex policy.cpu))).device_suspended
      policy.cpu ≠ 0) := by
    intro h; exact h hsus
  have h3 : env.cpufreq_frequency_table_target policy
      (((emit s (Event.mutex_lock (Mutex.suspend_mutex policy.cpu))).cpufreq_show_table
        policy.cpu).getD []) target_freq relation = some idx := hres
  simp only [if_neg hne, if_neg h2, h3]
  rfl

/-- The work item started from `target_work_state` runs `set_cpu_freq` with
the policy of the request and the frequency and index of the resolved step. -/
theorem set_cpu_work_of_target (env : Env) (s : State) (policy : cpufreq_policy) (idx : Nat) :
    (set_cpu_work env (target_work_state s policy idx) policy.cpu).freq_index =
      (set_cpu_freq env (target_work_state s policy idx) policy
        (rd ((s.cpufreq_show_table policy.cpu).getD []) idx).frequency
        (rd ((s.cpufreq_show_table policy.cpu).getD []) idx).index).2.freq_index ∧
    (set_cpu_work env (target_work_state s policy idx) policy.cpu).trace =
      (set_cpu_freq env (target_work_state s policy idx) policy
        (rd ((s.cpufreq_show_table policy.cpu).getD []) idx).frequency
        (rd ((s.cpufreq_show_table policy.cpu).getD []) idx).index).2.trace ++
        [Event.complete policy.cpu] ∧
    ((set_cpu_work env (target_work_state s policy idx) policy.cpu).cpufreq_work
        policy.cpu).status =
      (set_cpu_freq env (target_work_state s policy idx) policy
        (rd ((s.cpufreq_show_table policy.cpu).getD []) idx).frequency
        (rd ((s.cpufreq_show_table policy.cpu).getD []) idx).index).1 := by
  have hw : (target_work_state s policy idx).cpufreq_work policy.cpu =
      { policy := some policy,
        frequency := (rd ((s.cpufreq_show_table policy.cpu).getD []) idx).frequency,
        index := (rd ((s.cpufreq_show_table policy.cpu).getD []) idx).index,
        status := -ENODEV } := by
    unfold target_work_state
    simp [emit]
  unfold set_cpu_work
  simp only [hw, Option.getD_some]
  refine ⟨rfl, rfl, ?_⟩
  simp [emit]

theorem l2bw_index_congr (s t : State) (a : Option Nat) (h1 : s.freq_index = t.freq_index)
    (h2 : s.cpu_online = t.cpu_online) : l2bw_index s a = l2bw_index t a := by
  unfold l2bw_index
  rw [h1, h2]

/-- The calls of `update_l2_bw(NULL)` on a state `S` whose fields are known:
lock, the L2 clock-set for the index `A`, at most one bandwidth update, for
`A` too, unlock. -/
theorem update_l2_bw_trace_ex (env : Env) (S : State) (tr : List Event) (l2 : Option Nat)
    (khz : List Nat) (bus_client A : Nat) :
    S.trace = tr → S.l2_clk = l2 → S.l2_khz = khz → S.bus_client = bus_client →
    l2bw_index S none = A →
    ∃ bus, (update_l2_bw env S none).trace =
      tr ++ [Event.mutex_lock Mutex.l2bw_lock] ++
        (match l2 with
         | some clk => [Event.clk_set_rate (some clk) ((rd khz A * 1000) % U32)]
         | none => []) ++
        bus ++ [Event.mutex_unlock Mutex.l2bw_lock] ∧
      (bus = [] ∨ bus = [Event.msm_bus_scale_client_update_request bus_client A]) := by
  intro h1 h2 h3 h4 h5
  subst h1 h2 h3 h4 h5
  refine ⟨_, update_l2_bw_trace env S none, ?_⟩
  split
  · exact Or.inr rfl
  · exact Or.inl rfl

theorem prechange_trace_ex (s : State) (policy : cpufreq_policy) (f : Nat) :
    ∃ head, (set_cpu_freq_prechange s policy f).trace = s.trace ++ head ∧
      ∀ e ∈ head, ∀ c r, e ≠ Event.clk_set_rate c r := by
  refine ⟨_, prechange_trace s policy f, ?_⟩
  intro e he c r
  simp only [List.mem_append, List.mem_singleton] at he
  rcases he with he | he
  · split at he
    · simp only [List.mem_singleton] at he
      rw [he]; exact fun h => Event.noConfusion h
    · cases he
  · rw [he]; exact fun h => Event.noConfusion h

theorem restore_priority_trace_ex (s : State) (policy : cpufreq_policy) (f : Nat) (a b : Int) :
    ∃ tail, (restore_priority s policy f a b).trace = s.trace ++ tail ∧
      ∀ e ∈ tail, ∀ c r, e ≠ Event.clk_set_rate c r := by
  refine ⟨_, restore_priority_trace s policy f a b, ?_⟩
  intro e he c r
  split at he
  · simp only [List.mem_singleton] at he
    rw [he]; exact fun h => Event.noConfusion h
  · cases he

/-- A successful `set_cpu_freq` in clock mode: `freq_index` of the core is the
index handed in; the first clock call is the one for the core's clock, at the
rate rounded from the frequency handed in; `update_l2_bw` runs right after it,
with the index computed from the updated `freq_index`. -/
theorem set_cpu_freq_ok (env : Env) (s : State) (policy : cpufreq_policy) (f i : Nat)
    (hc : s.is_clk = true) (h : (set_cpu_freq env s policy f i).1 = 0) :
    (set_cpu_freq env s policy f i).2.freq_index =
      Function.update s.freq_index policy.cpu i ∧
    ∃ head bus tail,
      (set_cpu_freq env s policy f i).2.trace =
        s.trace ++ head ++
          [Event.clk_set_rate (s.cpu_clk policy.cpu)
             (cpu_clk_rate env s policy (env.msm_turbo f)),
           Event.mutex_lock Mutex.l2bw_lock] ++
          (match s.l2_clk with
           | some clk =>
             [Event.clk_set_rate (some clk)
               ((rd s.l2_khz (l2bw_index
                 { s with freq_index := Function.update s.freq_index policy.cpu i } none)
                 * 1000) % U32)]
           | none => []) ++
          bus ++ [Event.mutex_unlock Mutex.l2bw_lock] ++ tail ∧
      (∀ e ∈ head, ∀ c r, e ≠ Event.clk_set_rate c r) ∧
      (bus = [] ∨ bus = [Event.msm_bus_scale_client_update_request s.bus_client
        (l2bw_index { s with freq_index := Function.update s.freq_index policy.cpu i } none)]) ∧
      (∀ e ∈ tail, ∀ c r, e ≠ Event.clk_set_rate c r) := by
  unfold set_cpu_freq at h ⊢
  simp only [] at h ⊢
  have hPc : (set_cpu_freq_prechange s policy (env.msm_turbo f)).is_clk = true := by
    rw [prechange_is_clk]; exact hc
  obtain ⟨S, hk, t1, t2, t3, t4, t5, t6⟩ :=
    set_cpu_freq_clock_ok env (set_cpu_freq_prechange s policy (env.msm_turbo f))
      policy (env.msm_turbo f) i hPc h
  obtain ⟨p1, p2, p3, p4⟩ := prechange_frame s policy (env.msm_turbo f)
  obtain ⟨head, hh1, hh2⟩ := prechange_trace_ex s policy (env.msm_turbo f)
  rw [prechange_freq_index] at t2
  rw [hh1, prechange_cpu_clk] at t1
  have t1b : S.trace = s.trace ++ head ++
        [Event.clk_set_rate (s.cpu_clk policy.cpu)
          (cpu_clk_rate env s policy (env.msm_turbo f))] := by
    rw [t1]
    simp only [cpu_clk_rate, prechange_cpu_clk]
  have hA : l2bw_index S none =
      l2bw_index { s with freq_index := Function.update s.freq_index policy.cpu i } none :=
    l2bw_index_congr _ _ none t2 (t3.trans p1)
  obtain ⟨bus, htr, hbus⟩ := update_l2_bw_trace_ex env S _ s.l2_clk s.l2_khz s.bus_client _ t1b
    (t4.trans p2) (t5.trans p3) (t6.trans p4) hA
  simp only [h, if_true]
  obtain ⟨rs, hr1, hr2⟩ := restore_priority_trace_ex
    (emit (set_cpu_freq_clock env (set_cpu_freq_prechange s policy (env.msm_turbo f)) policy
        (env.msm_turbo f) i).2
      (Event.cpufreq_notify_transition policy.cur (env.msm_turbo f) policy.cpu
        CPUFREQ_POSTCHANGE))
    policy (env.msm_turbo f)
    (if raises_priority s policy (env.msm_turbo f) = true then (s.current_policy : Int)
      else -EINVAL)
    (if raises_priority s policy (env.msm_turbo f) = true then (s.current_rt_priority : Int)
      else -EINVAL)
  rw [restore_priority_freq_index, hr1, emit_freq_index, emit_trace, hk,
    update_l2_bw_freq_index, htr]
  refine ⟨t2, head, bus,
    [Event.cpufreq_notify_transition policy.cur (env.msm_turbo f) policy.cpu
      CPUFREQ_POSTCHANGE] ++ rs, ?_, hh2, hbus, ?_⟩
  · simp only [List.append_assoc, List.singleton_append, List.cons_append, List.nil_append]
  · intro e he c r
    rcases List.mem_append.mp he with he | he
    · simp only [List.mem_singleton] at he
      rw [he]; exact fun h => Event.noConfusion h
    · exact hr2 e he c r

theorem target_work_state_trace (s : State) (policy : cpufreq_policy) (idx : Nat) :
    (target_work_state s policy idx).trace =
      s.trace ++ [Event.mutex_lock (Mutex.suspend_mutex policy.cpu),
        Event.cancel_work_sync policy.cpu, Event.queue_work_on policy.cpu] := by
  unfold target_work_state
  simp [emit]

/-! ### The steps of the table (C1) -/

/-- C1 fails on the code: with an L2 clock that cannot round the L2 rate of
the first row, the three rows `300000`, `600000`, `900000` kHz, whose rounded
cpu rates are no errors and strictly increasing (the count of the
specification is `3`), give a table of one step: the frequency stored for
step `0` is the invalid marker, which the rate of row `1` does not exceed. -/
theorem C1_parse_dt_truncates_after_l2_failure :
    (cpufreq_parse_dt env_l2bad s_boot dev_3x2).1 = 0 ∧
    spec_accepted_count env_l2bad (s_boot.cpu_clk 0) none
      (cpu_cells [300000, 150000, 600000, 300000, 900000, 450000] 2 0 3) = 3 ∧
    (cpufreq_parse_dt env_l2bad s_boot dev_3x2).2.bus_bw_num_usecases = 1 ∧
    (cpufreq_parse_dt env_l2bad s_boot dev_3x2).2.freq_table =
      [{ index := 0, frequency := CPUFREQ_ENTRY_INVALID },
       { index := 1, frequency := CPUFREQ_TABLE_END },
       { index := 0, frequency := 0 }, { index := 0, frequency := 0 }] := by
  refine ⟨by decide, by decide, by decide, by decide⟩

/-! ### Requests on a suspended core (C2) -/

/-- C2, as stated, fails: on a suspended core a request whose target equals
`policy->cur` returns `0`, not the Suspended error `-EFAULT`. -/
theorem C2_counterexample :
    s_suspended.device_suspended policy0.cpu ≠ 0 ∧
    (msm_cpufreq_target env_ok s_suspended policy0 600000 CPUFREQ_RELATION_H).1 = 0 ∧
    (msm_cpufreq_target env_ok s_suspended policy0 600000 CPUFREQ_RELATION_H).1 ≠ -EFAULT := by
  refine ⟨by decide, by decide, by decide⟩

/-- C2, amended: while `device_suspended` of the target core is set,
`msm_cpufreq_target` changes nothing (no `freq_index`, no work item, no
clock-set call: it only takes and releases the core's mutex); it fails with
`-EFAULT` whenever the target differs from `policy->cur`, and returns `0`
when the target equals `policy->cur`. -/
theorem C2_target_while_suspended (env : Env) (s : State) (policy : cpufreq_policy)
    (target_freq relation : Nat) (h : s.device_suspended policy.cpu ≠ 0) :
    (msm_cpufreq_target env s policy target_freq relation).1 =
        (if target_freq = policy.cur then 0 else -EFAULT) ∧
    (msm_cpufreq_target env s policy target_freq relation).2 =
        { s with trace := s.trace ++ [Event.mutex_lock (Mutex.suspend_mutex policy.cpu),
                                      Event.mutex_unlock (Mutex.suspend_mutex policy.cpu)] } := by
  unfold msm_cpufreq_target
  by_cases ht : target_freq = policy.cur
  · simp [ht, emit]
  · simp [ht, emit, h]

/-- C2, amended, at a suspended core asked for 900000 kHz. -/
theorem C2_target_while_suspended_witness :
    s_suspended.device_suspended policy0.cpu ≠ 0 ∧
    ((msm_cpufreq_target env_ok s_suspended policy0 900000 CPUFREQ_RELATION_H).1 =
        (if 900000 = policy0.cur then 0 else -EFAULT) ∧
     (msm_cpufreq_target env_ok s_suspended policy0 900000 CPUFREQ_RELATION_H).2 =
        { s_suspended with
          trace := s_suspended.trace ++
            [Event.mutex_lock (Mutex.suspend_mutex policy0.cpu),
             Event.mutex_unlock (Mutex.suspend_mutex policy0.cpu)] }) :=
  ⟨by decide,
   C2_target_while_suspended env_ok s_suspended policy0 900000 CPUFREQ_RELATION_H (by decide)⟩

/-! ### Requests that resolve to the current step (C3) -/

/-- C3, as stated, fails: cpu `0` is not suspended and runs at step `1`
(600000 kHz); the target 700000 kHz with `CPUFREQ_RELATION_H` resolves to
step `1`, the step the core runs at, yet the request is not a no-op: work is
queued, both notifications are sent and the cpu and L2 clocks are set. -/
theorem C3_counterexample :
    s_run.device_suspended policy0.cpu = 0 ∧
    env_ok.cpufreq_frequency_table_target policy0 table_369 700000 CPUFREQ_RELATION_H = some 1 ∧
    s_run.freq_index policy0.cpu = 1 ∧
    (rd table_369 1).frequency = policy0.cur ∧
    (msm_cpufreq_target env_ok s_run policy0 700000 CPUFREQ_RELATION_H).1 = 0 ∧
    (msm_cpufreq_target env_ok s_run policy0 700000 CPUFREQ_RELATION_H).2.trace =
      [Event.mutex_lock (Mutex.suspend_mutex 0),
       Event.cancel_work_sync 0,
       Event.queue_work_on 0,
       Event.cpufreq_notify_transition 600000 600000 0 CPUFREQ_PRECHANGE,
       Event.clk_set_rate (some 0) 600000000,
       Event.mutex_lock Mutex.l2bw_lock,
       Event.clk_set_rate (some 100) 300000000,
       Event.msm_bus_scale_client_update_request 7 1,
       Event.mutex_unlock Mutex.l2bw_lock,
       Event.cpufreq_notify_transition 600000 600000 0 CPUFREQ_POSTCHANGE,
       Event.complete 0,
       Event.wait_for_completion 0,
       Event.mutex_unlock (Mutex.suspend_mutex 0)] := by
  refine ⟨by decide, by decide, by decide, by decide, by decide, by decide⟩

/-- C3, amended: a request whose target frequency is equal to `policy->cur`
returns `0` at once with no side effect (no work queued, no notification, no
clock-set call, no state change: only the core's mutex is taken and
released). The test is the equality of the two frequencies, not of the
resolved steps. -/
theorem C3_target_equal_cur_is_noop (env : Env) (s : State) (policy : cpufreq_policy)
    (target_freq relation : Nat) (h : target_freq = policy.cur) :
    (msm_cpufreq_target env s policy target_freq relation).1 = 0 ∧
    (msm_cpufreq_target env s policy target_freq relation).2 =
        { s with trace := s.trace ++ [Event.mutex_lock (Mutex.suspend_mutex policy.cpu),
                                      Event.mutex_unlock (Mutex.suspend_mutex policy.cpu)] } := by
  unfold msm_cpufreq_target
  simp [h, emit]

/-- C3, amended, at cpu `0` running at 600000 kHz and asked for 600000 kHz. -/
theorem C3_target_equal_cur_is_noop_witness :
    (600000 : Nat) = policy0.cur ∧
    ((msm_cpufreq_target env_ok s_run policy0 600000 CPUFREQ_RELATION_L).1 = 0 ∧
     (msm_cpufreq_target env_ok s_run policy0 600000 CPUFREQ_RELATION_L).2 =
        { s_run with
          trace := s_run.trace ++
            [Event.mutex_lock (Mutex.suspend_mutex policy0.cpu),
             Event.mutex_unlock (Mutex.suspend_mutex policy0.cpu)] }) :=
  ⟨by decide,
   C3_target_equal_cur_is_noop env_ok s_run policy0 600000 CPUFREQ_RELATION_L (by decide)⟩

/-! ### Failure of the clock-set call (C4) -/

/-- C4: in `set_cpu_freq`, when the clock-set operation returns a non-zero
error, that error is what `set_cpu_freq` returns, `freq_index` of every core
is unchanged, and among the calls made there is neither the entry into
`update_l2_bw` (its `mutex_lock(&l2bw_lock)`) nor a post-change notification.
So `freq_index` is written only after the clock-set call returned `0`. -/
theorem C4_set_cpu_freq_clock_failure (env : Env) (s : State) (policy : cpufreq_policy)
    (new_freq index : Nat) (h : clock_set_result env s policy new_freq ≠ 0) :
    (set_cpu_freq env s policy new_freq index).1 = clock_set_result env s policy new_freq ∧
    (set_cpu_freq env s policy new_freq index).2.freq_index = s.freq_index ∧
    ∃ evs, (set_cpu_freq env s policy new_freq index).2.trace = s.trace ++ evs ∧
      Event.mutex_lock Mutex.l2bw_lock ∉ evs ∧
      ∀ old new cpu, Event.cpufreq_notify_transition old new cpu CPUFREQ_POSTCHANGE ∉ evs := by
  have h1 := set_cpu_freq_clock_fst env s policy new_freq index
  have h2 := set_cpu_freq_clock_fail env (set_cpu_freq_prechange s policy (env.msm_turbo new_freq)) policy
    (env.msm_turbo new_freq) index (by rw [h1]; exact h)
  obtain ⟨h3, e, h4, h5, h6⟩ := h2
  have h0 : (set_cpu_freq_clock env (set_cpu_freq_prechange s policy (env.msm_turbo new_freq))
      policy (env.msm_turbo new_freq) index).1 ≠ 0 := by rw [h1]; exact h
  unfold set_cpu_freq
  simp only [h0, if_false]
  refine ⟨h1, ?_, ?_⟩
  · rw [restore_priority_freq_index, h3, prechange_freq_index]
  · rw [restore_priority_trace, h4, prechange_trace]
    simp only [List.append_assoc]
    refine ⟨_, rfl, ?_, ?_⟩
    · intro hm
      simp only [List.mem_append, List.mem_singleton] at hm
      rcases hm with hm | hm | hm | hm
      · split at hm <;> simp at hm
      · simp at hm
      · exact h5 hm.symm
      · split at hm <;> simp at hm
    · intro o n c hm
      simp only [List.mem_append, List.mem_singleton] at hm
      rcases hm with hm | hm | hm | hm
      · split at hm <;> simp at hm
      · simp [CPUFREQ_PRECHANGE, CPUFREQ_POSTCHANGE] at hm
      · exact h6 o n c hm.symm
      · split at hm <;> simp at hm

/-- C4 at cpu `0` asked to go from 600000 to 900000 kHz while `clk_set_rate`
fails with `-EIO`. -/
theorem C4_set_cpu_freq_clock_failure_witness :
    clock_set_result env_setfail s_run policy0 900000 ≠ 0 ∧
    ((set_cpu_freq env_setfail s_run policy0 900000 2).1 =
        clock_set_result env_setfail s_run policy0 900000 ∧
     (set_cpu_freq env_setfail s_run policy0 900000 2).2.freq_index = s_run.freq_index ∧
     ∃ evs, (set_cpu_freq env_setfail s_run policy0 900000 2).2.trace = s_run.trace ++ evs ∧
       Event.mutex_lock Mutex.l2bw_lock ∉ evs ∧
       ∀ old new cpu, Event.cpufreq_notify_transition old new cpu CPUFREQ_POSTCHANGE ∉ evs) :=
  ⟨by decide, C4_set_cpu_freq_clock_failure env_setfail s_run policy0 900000 2 (by decide)⟩

/-! ### The aggregate index (C5) -/

/-- C5: the index used by `update_l2_bw` is the maximum of `freq_index` over
the online cores and the extra core when one is given: it bounds all of them
and is the `freq_index` of one of them, and it is `0` when there is no online
core and no extra core. The calls made are, between lock and unlock of
`l2bw_lock`, the L2 clock-set with rate `l2_khz[index] * 1000` (when there is
an L2 clock) and the bandwidth update with use case `index` (when the clock-set
did not fail and a bus client is registered). -/
theorem C5_update_l2_bw_uses_max_index (env : Env) (s : State) (also_cpu : Option Nat) :
    (∀ cpu ∈ s.cpu_online, s.freq_index cpu ≤ l2bw_index s also_cpu) ∧
    (∀ cpu, also_cpu = some cpu → s.freq_index cpu ≤ l2bw_index s also_cpu) ∧
    ((∃ cpu, (cpu ∈ s.cpu_online ∨ also_cpu = some cpu) ∧
        s.freq_index cpu = l2bw_index s also_cpu) ∨
      (s.cpu_online = [] ∧ also_cpu = none)) ∧
    (s.cpu_online = [] → also_cpu = none → l2bw_index s also_cpu = 0) ∧
    (update_l2_bw env s also_cpu).trace =
      s.trace ++ [Event.mutex_lock Mutex.l2bw_lock] ++
        (match s.l2_clk with
         | some clk =>
           [Event.clk_set_rate (some clk) ((rd s.l2_khz (l2bw_index s also_cpu) * 1000) % U32)]
         | none => []) ++
        (if (match s.l2_clk with
             | some clk =>
               env.clk_set_rate (s.trace ++ [Event.mutex_lock Mutex.l2bw_lock]) (some clk)
                 ((rd s.l2_khz (l2bw_index s also_cpu) * 1000) % U32)
             | none => 0) = 0 ∧ s.bus_client ≠ 0
         then [Event.msm_bus_scale_client_update_request s.bus_client (l2bw_index s also_cpu)]
         else []) ++
        [Event.mutex_unlock Mutex.l2bw_lock] := by
  refine ⟨?_, ?_, ?_, ?_, update_l2_bw_trace env s also_cpu⟩
  · intro cpu h
    exact foldl_max_ge_mem s.freq_index s.cpu_online _ cpu h
  · intro cpu h
    subst h
    exact foldl_max_ge_init s.freq_index s.cpu_online _
  · cases also_cpu with
    | some c =>
      left
      rcases foldl_max_attained s.freq_index s.cpu_online (s.freq_index c) with h | ⟨d, hd, h⟩
      · exact ⟨c, Or.inr rfl, h.symm⟩
      · exact ⟨d, Or.inl hd, h⟩
    | none =>
      cases ho : s.cpu_online with
      | nil => exact Or.inr ⟨rfl, rfl⟩
      | cons a l =>
        left
        rcases foldl_max_attained s.freq_index s.cpu_online 0 with h | ⟨d, hd, h⟩
        · refine ⟨a, Or.inl (List.mem_cons_self _ _), ?_⟩
          have h1 : s.freq_index a ≤ l2bw_index s none :=
            foldl_max_ge_mem s.freq_index s.cpu_online 0 a (by rw [ho]; exact List.mem_cons_self _ _)
          have h2 : l2bw_index s none = 0 := h
          omega
        · exact ⟨d, Or.inl (by rw [← ho]; exact hd), h⟩
  · intro h1 h2
    subst h2
    unfold l2bw_index
    rw [h1]
    rfl

/-! ### A step marked invalid as aggregate index (C6) -/

/-- C6, as stated, fails: after a build in which the L2 rate of step `0`
could not be rounded (step `0` is marked invalid), with every core at step `0`
and bus client `7`, `update_l2_bw` does issue an L2 clock-set call, with rate
`0`. -/
theorem C6_counterexample :
    (rd s_l2_invalid.freq_table (l2bw_index s_l2_invalid none)).frequency =
      CPUFREQ_ENTRY_INVALID ∧
    (update_l2_bw env_ok s_l2_invalid none).trace =
      [Event.mutex_lock Mutex.l2bw_lock,
       Event.clk_set_rate (some 100) 0,
       Event.msm_bus_scale_client_update_request 7 0,
       Event.mutex_unlock Mutex.l2bw_lock] ∧
    Event.clk_set_rate s_l2_invalid.l2_clk 0 ∈ (update_l2_bw env_ok s_l2_invalid none).trace := by
  refine ⟨by decide, by decide, by decide⟩

/-- C6, amended: `update_l2_bw` does not look at the invalid marking. When
there is an L2 clock it always issues the L2 clock-set call, with rate
`l2_khz[index] * 1000` for the aggregate index, also when that step is marked
invalid; the bandwidth update for that index follows when a bus client is
registered and the clock-set call returned `0`. -/
theorem C6_update_l2_bw_sets_l2_clock (env : Env) (s : State) (also_cpu : Option Nat)
    (clk : Nat) (h : s.l2_clk = some clk) :
    (update_l2_bw env s also_cpu).trace =
      s.trace ++ [Event.mutex_lock Mutex.l2bw_lock,
        Event.clk_set_rate (some clk) ((rd s.l2_khz (l2bw_index s also_cpu) * 1000) % U32)] ++
        (if env.clk_set_rate (s.trace ++ [Event.mutex_lock Mutex.l2bw_lock]) (some clk)
              ((rd s.l2_khz (l2bw_index s also_cpu) * 1000) % U32) = 0 ∧ s.bus_client ≠ 0
         then [Event.msm_bus_scale_client_update_request s.bus_client (l2bw_index s also_cpu)]
         else []) ++
        [Event.mutex_unlock Mutex.l2bw_lock] := by
  rw [update_l2_bw_trace, h]
  simp

/-- C6, amended, at the state whose step `0` is marked invalid. -/
theorem C6_update_l2_bw_sets_l2_clock_witness :
    s_l2_invalid.l2_clk = some 100 ∧
    (update_l2_bw env_ok s_l2_invalid none).trace =
      s_l2_invalid.trace ++ [Event.mutex_lock Mutex.l2bw_lock,
        Event.clk_set_rate (some 100)
          ((rd s_l2_invalid.l2_khz (l2bw_index s_l2_invalid none) * 1000) % U32)] ++
        (if env_ok.clk_set_rate (s_l2_invalid.trace ++ [Event.mutex_lock Mutex.l2bw_lock])
              (some 100) ((rd s_l2_invalid.l2_khz (l2bw_index s_l2_invalid none) * 1000) % U32) = 0
            ∧ s_l2_invalid.bus_client ≠ 0
         then [Event.msm_bus_scale_client_update_request s_l2_invalid.bus_client
                (l2bw_index s_l2_invalid none)]
         else []) ++
        [Event.mutex_unlock Mutex.l2bw_lock] :=
  ⟨by decide, C6_update_l2_bw_sets_l2_clock env_ok s_l2_invalid none 100 (by decide)⟩

/-! ### A table without steps, a step without L2 rate (C7, C8) -/

/-- C9: a write to the ceiling attribute fails exactly when there is no
frequency table, when the input is not a number, or when the value resolves
to no table entry; it then returns `-EINVAL`, leaves `ex_max_freq` unchanged
and issues neither a limit update nor a policy re-evaluation (the only calls
are the lock and unlock of the core's mutex on the last of the three paths).
Otherwise it returns `count`, and `ex_max_freq` is the frequency of the table
step the written value resolved to. -/
theorem C9_store_ex_max_freq_atomic (env : Env) (s : State) (policy : cpufreq_policy)
    (buf : String) (count : Nat) (hcount : count < 2 ^ 31) :
    ((store_ex_max_freq env s policy buf count).1 < 0 ↔
      (s.cpufreq_show_table policy.cpu = none ∨ env.sscanf_u buf = none ∨
        ∃ table freq, s.cpufreq_show_table policy.cpu = some table ∧
          env.sscanf_u buf = some freq ∧
          env.cpufreq_frequency_table_target policy table (freq % U32)
            CPUFREQ_RELATION_H = none)) ∧
    ((store_ex_max_freq env s policy buf count).1 < 0 →
      (store_ex_max_freq env s policy buf count).1 = -EINVAL ∧
      (store_ex_max_freq env s policy buf count).2.ex_max_freq = s.ex_max_freq ∧
      ((store_ex_max_freq env s policy buf count).2.trace = s.trace ∨
       (store_ex_max_freq env s policy buf count).2.trace =
         s.trace ++ [Event.mutex_lock (Mutex.suspend_mutex policy.cpu),
                     Event.mutex_unlock (Mutex.suspend_mutex policy.cpu)])) ∧
    (0 ≤ (store_ex_max_freq env s policy buf count).1 →
      (store_ex_max_freq env s policy buf count).1 = count ∧
      ∃ table freq index, s.cpufreq_show_table policy.cpu = some table ∧
        env.sscanf_u buf = some freq ∧
        env.cpufreq_frequency_table_target policy table (freq % U32)
          CPUFREQ_RELATION_H = some index ∧
        (store_ex_max_freq env s policy buf count).2.ex_max_freq =
          (rd table index).frequency) := by
  have hn : (-EINVAL : Int) < 0 := by decide
  have hp : (0 : Int) < EINVAL := by decide
  have hc : (0 : Int) ≤ int_of_size count := by rw [int_of_size_nonneg count hcount]; omega
  unfold store_ex_max_freq
  cases ht : s.cpufreq_show_table policy.cpu with
  | none => simp [hp]
  | some table =>
    cases hs : env.sscanf_u buf with
    | none => simp [hp]
    | some freq =>
      cases hr : env.cpufreq_frequency_table_target policy table (freq % U32)
          CPUFREQ_RELATION_H with
      | none => simp [hp, hr, emit]
      | some index =>
        simp only [hr]
        refine ⟨?_, ?_, ?_⟩
        · simp [hr]; exact hc
        · intro h; exact absurd h (not_lt.mpr hc)
        · intro _
          refine ⟨int_of_size_nonneg count hcount, table, freq, index, rfl, rfl, hr, ?_⟩
          exact foldl_limits_ex_max_freq s.cpu_possible _

/-- C9 at the write of `600000` (accepted) and of `1000` (below every step)
on the table `[300000, 600000, 900000]`. -/
theorem C9_store_ex_max_freq_atomic_witness :
    (7 : Nat) < 2 ^ 31 ∧ (5 : Nat) < 2 ^ 31 ∧
    (store_ex_max_freq env_ok s_run policy0 "600000" 7).1 = 7 ∧
    (store_ex_max_freq env_ok s_run policy0 "600000" 7).2.ex_max_freq = 600000 ∧
    (store_ex_max_freq env_ok s_run policy0 "1000" 5).1 < 0 ∧
    (store_ex_max_freq env_ok s_run policy0 "1000" 5).2.ex_max_freq = s_run.ex_max_freq :=
  ⟨by decide, by decide,
   ((C9_store_ex_max_freq_atomic env_ok s_run policy0 "600000" 7 (by decide)).2.2
      (by decide)).1,
   by decide,
   by decide,
   ((C9_store_ex_max_freq_atomic env_ok s_run policy0 "1000" 5 (by decide)).2.1
      (by decide)).2.1⟩

/-- C10 fails on the code: a successful write of `600000` with the four
cores `0..3` sets the limit of each core, but `cpufreq_update_policy` is
called once only, after the loop, with the id `4` that the loop variable holds
then, which is no core; no core `0..3` gets a policy re-evaluation. -/
theorem C10_store_ex_max_freq_update_policy_after_loop :
    (store_ex_max_freq env_ok s_run policy0 "600000" 7).1 = 7 ∧
    s_run.cpu_possible = [0, 1, 2, 3] ∧
    (store_ex_max_freq env_ok s_run policy0 "600000" 7).2.trace =
      [Event.mutex_lock (Mutex.suspend_mutex 0),
       Event.msm_cpufreq_set_freq_limits 0 MSM_CPUFREQ_NO_LIMIT 600000,
       Event.msm_cpufreq_set_freq_limits 1 MSM_CPUFREQ_NO_LIMIT 600000,
       Event.msm_cpufreq_set_freq_limits 2 MSM_CPUFREQ_NO_LIMIT 600000,
       Event.msm_cpufreq_set_freq_limits 3 MSM_CPUFREQ_NO_LIMIT 600000,
       Event.cpufreq_update_policy 4,
       Event.mutex_unlock (Mutex.suspend_mutex 0)] ∧
    (∀ cpu ∈ s_run.cpu_possible, Event.cpufreq_update_policy cpu ∉
      (store_ex_max_freq env_ok s_run policy0 "600000" 7).2.trace) := by
  refine ⟨by decide, by decide, by decide, by decide⟩

/-! ### Suspend and resume (C11) -/

/-- C11: `msm_cpufreq_suspend` sets `device_suspended` of every possible cpu
and `msm_cpufreq_resume` clears it (also when it follows the suspend). Between
`get_online_cpus` and `put_online_cpus`, resume issues the corrective updates
of the specification and makes no other call: a `cpufreq_update_policy(cpu)`
is issued only for online cpus, in order, for those whose policy could be
read (`cpufreq_get_policy` returned `0`) and whose `cur` lies outside
`[min, max]` when the cpu is visited; when the policies read do not depend on
the corrections already made, these are exactly the online cpus that satisfy
this condition. -/
theorem C11_suspend_resume_flags_and_corrections (env : Env) (s : State) :
    (∀ cpu ∈ s.cpu_possible, (msm_cpufreq_suspend s).2.device_suspended cpu = 1) ∧
    (∀ cpu ∈ s.cpu_possible, (msm_cpufreq_resume env s).2.device_suspended cpu = 0) ∧
    (∀ cpu ∈ s.cpu_possible,
      (msm_cpufreq_resume env (msm_cpufreq_suspend s).2).2.device_suspended cpu = 0) ∧
    (msm_cpufreq_resume env s).2.trace =
      s.trace ++ [Event.get_online_cpus] ++
        spec_resume_updates env (s.trace ++ [Event.get_online_cpus]) s.cpu_online ++
        [Event.put_online_cpus] ∧
    (∀ e ∈ spec_resume_updates env (s.trace ++ [Event.get_online_cpus]) s.cpu_online,
      ∃ cpu ∈ s.cpu_online, e = Event.cpufreq_update_policy cpu) ∧
    (∀ pol : Nat → Int × cpufreq_policy,
      (∀ tr cpu, env.cpufreq_get_policy tr cpu = pol cpu) →
      (msm_cpufreq_resume env s).2.trace =
        s.trace ++ [Event.get_online_cpus] ++
          (s.cpu_online.filter (fun cpu => policy_violated (pol cpu))).map
            Event.cpufreq_update_policy ++
          [Event.put_online_cpus]) := by
  have hflag : ∀ (t : State), ∀ cpu ∈ t.cpu_possible,
      (msm_cpufreq_resume env t).2.device_suspended cpu = 0 := by
    intro t cpu hc
    unfold msm_cpufreq_resume
    show (List.foldl (resume_check_step env)
      (emit (List.foldl resume_clear_step t t.cpu_possible) Event.get_online_cpus)
      (emit (List.foldl resume_clear_step t t.cpu_possible)
        Event.get_online_cpus).cpu_online).device_suspended cpu = 0
    rw [(foldl_check_spec env _ _).1]
    show (List.foldl resume_clear_step t t.cpu_possible).device_suspended cpu = 0
    rw [foldl_clear_flag, if_pos hc]
  have htrace : (msm_cpufreq_resume env s).2.trace =
      s.trace ++ [Event.get_online_cpus] ++
        spec_resume_updates env (s.trace ++ [Event.get_online_cpus]) s.cpu_online ++
        [Event.put_online_cpus] := by
    unfold msm_cpufreq_resume
    obtain ⟨f1, f2⟩ := foldl_clear_frame s.cpu_possible s
    show (List.foldl (resume_check_step env)
      (emit (List.foldl resume_clear_step s s.cpu_possible) Event.get_online_cpus)
      (List.foldl resume_clear_step s s.cpu_possible).cpu_online).trace ++
        [Event.put_online_cpus] = _
    rw [(foldl_check_spec env _ _).2, emit_trace, f1, f2]
  refine ⟨?_, hflag s, ?_, htrace, ?_, ?_⟩
  · intro cpu hc
    unfold msm_cpufreq_suspend
    show (List.foldl suspend_step s s.cpu_possible).device_suspended cpu = 1
    rw [foldl_suspend_flag, if_pos hc]
  · intro cpu hc
    apply hflag
    unfold msm_cpufreq_suspend
    show cpu ∈ (List.foldl suspend_step s s.cpu_possible).cpu_possible
    rw [foldl_suspend_possible]
    exact hc
  · intro e he
    exact spec_resume_updates_mem env _ _ e he
  · intro pol hp
    rw [htrace, spec_resume_updates_pure env pol hp]

/-- C11 at the suspended driver with four cores, where cpu `1` is above its
maximum, cpu `3` below its minimum and the policy of cpu `2` cannot be read:
resume clears the flags and corrects cpus `1` and `3` only. -/
theorem C11_suspend_resume_flags_and_corrections_witness :
    (msm_cpufreq_suspend s_run).2.device_suspended 2 = 1 ∧
    (msm_cpufreq_resume env_resume s_suspended).2.device_suspended 2 = 0 ∧
    (msm_cpufreq_resume env_resume s_suspended).2.trace =
      s_suspended.trace ++ [Event.get_online_cpus] ++
        (s_suspended.cpu_online.filter
          (fun cpu => policy_violated (env_resume.cpufreq_get_policy [] cpu))).map
          Event.cpufreq_update_policy ++
        [Event.put_online_cpus] ∧
    (msm_cpufreq_resume env_resume s_suspended).2.trace =
      [Event.get_online_cpus, Event.cpufreq_update_policy 1, Event.cpufreq_update_policy 3,
       Event.put_online_cpus] :=
  ⟨(C11_suspend_resume_flags_and_corrections env_resume s_run).1 2 (by decide),
   (C11_suspend_resume_flags_and_corrections env_resume s_suspended).2.1 2 (by decide),
   (C11_suspend_resume_flags_and_corrections env_resume s_suspended).2.2.2.2.2
     (fun cpu => env_resume.cpufreq_get_policy [] cpu) (fun _ _ => rfl),
   by decide⟩

/-! ### A successful request in clock mode (C12) -/

/-- C12, as stated, fails at two requests that are successful, in clock mode,
on an online core that is not suspended.
* The clock of cpu `1` rounds 600 MHz up to 648 MHz (the table was built with
  the clock of cpu `0`): the target 700000 kHz resolves to the step of
  600000 kHz, and the clock-set call gets 648000000 Hz; no clock-set call
  gets the 600000 kHz of the step.
* `msm_turbo` caps the frequency at 600000 kHz: the target 900000 kHz resolves
  to the step of 900000 kHz, `freq_index[0]` becomes `2`, and the clock-set
  call gets 600000000 Hz. -/
theorem C12_counterexample :
    ((700000 : Nat) ≠ policy1_300.cur ∧ s_step0.device_suspended policy1_300.cpu = 0 ∧
      s_step0.is_clk = true ∧ policy1_300.cpu ∈ s_step0.cpu_online ∧
      env_round648.cpufreq_frequency_table_target policy1_300
        ((s_step0.cpufreq_show_table policy1_300.cpu).getD []) 700000 CPUFREQ_RELATION_H =
        some 1 ∧
      (msm_cpufreq_target env_round648 s_step0 policy1_300 700000 CPUFREQ_RELATION_H).1 = 0 ∧
      resolved_step s_step0 policy1_300 1 = { index := 1, frequency := 600000 } ∧
      (msm_cpufreq_target env_round648 s_step0 policy1_300 700000
          CPUFREQ_RELATION_H).2.trace =
        [Event.mutex_lock (Mutex.suspend_mutex 1),
         Event.cancel_work_sync 1,
         Event.queue_work_on 1,
         Event.sched_setscheduler_nocheck 1 99,
         Event.cpufreq_notify_transition 300000 600000 1 CPUFREQ_PRECHANGE,
         Event.clk_set_rate (some 1) 648000000,
         Event.mutex_lock Mutex.l2bw_lock,
         Event.clk_set_rate (some 100) 300000000,
         Event.msm_bus_scale_client_update_request 7 1,
         Event.mutex_unlock Mutex.l2bw_lock,
         Event.cpufreq_notify_transition 300000 600000 1 CPUFREQ_POSTCHANGE,
         Event.sched_setscheduler_nocheck 0 0,
         Event.complete 1,
         Event.wait_for_completion 1,
         Event.mutex_unlock (Mutex.suspend_mutex 1)] ∧
      Event.clk_set_rate (some 1) (600000 * 1000) ∉
        (msm_cpufreq_target env_round648 s_step0 policy1_300 700000
          CPUFREQ_RELATION_H).2.trace) ∧
    ((900000 : Nat) ≠ policy0_300.cur ∧ s_step0.device_suspended policy0_300.cpu = 0 ∧
      s_step0.is_clk = true ∧ policy0_300.cpu ∈ s_step0.cpu_online ∧
      env_turbo_cap.cpufreq_frequency_table_target policy0_300
        ((s_step0.cpufreq_show_table policy0_300.cpu).getD []) 900000 CPUFREQ_RELATION_H =
        some 2 ∧
      (msm_cpufreq_target env_turbo_cap s_step0 policy0_300 900000 CPUFREQ_RELATION_H).1 = 0 ∧
      resolved_step s_step0 policy0_300 2 = { index := 2, frequency := 900000 } ∧
      (msm_cpufreq_target env_turbo_cap s_step0 policy0_300 900000
          CPUFREQ_RELATION_H).2.freq_index 0 = 2 ∧
      Event.clk_set_rate (some 0) 600000000 ∈
        (msm_cpufreq_target env_turbo_cap s_step0 policy0_300 900000
          CPUFREQ_RELATION_H).2.trace ∧
      Event.clk_set_rate (some 0) (900000 * 1000) ∉
        (msm_cpufreq_target env_turbo_cap s_step0 policy0_300 900000
          CPUFREQ_RELATION_H).2.trace) := by
  refine ⟨⟨by decide, by decide, by decide, by decide, by decide, by decide, by decide,
    by decide, by decide⟩, ⟨by decide, by decide, by decide, by decide, by decide, by decide,
    by decide, by decide, by decide, by decide⟩⟩

/-- C12, amended: a request through `msm_cpufreq_target` on a core that is
online and not suspended, in clock mode, that differs from `policy->cur`,
resolves to position `idx` of the table and returns `0`. With `f` and `i` the
frequency and index of the resolved step:
* the clock-set call for the core's clock is the first clock call, and its
  rate is `clk_round_rate(cpu_clk[cpu], msm_turbo(f) * 1000)`: what the clock
  of the core rounds `f` to, in Hz, `f` having passed through `msm_turbo`;
* that rate is `f * 1000` Hz, that is `f` kHz, when `msm_turbo` leaves `f`
  alone and the clock of the core rounds `f * 1000` to itself;
* `freq_index` of the core becomes `i`, that of the other cores is unchanged;
* `update_l2_bw` runs right after that clock-set call (lock, L2 clock-set, at
  most one bandwidth update, unlock) with the index `A` which is the maximum
  of `i` and of `freq_index` of the other online cores. -/
theorem C12_successful_request_sets_rounded_rate (env : Env) (s : State)
    (policy : cpufreq_policy) (target_freq relation idx : Nat)
    (hne : target_freq ≠ policy.cur)
    (hsus : s.device_suspended policy.cpu = 0)
    (hclk : s.is_clk = true)
    (hon : policy.cpu ∈ s.cpu_online)
    (hres : env.cpufreq_frequency_table_target policy
      ((s.cpufreq_show_table policy.cpu).getD []) target_freq relation = some idx)
    (hok : (msm_cpufreq_target env s policy target_freq relation).1 = 0) :
    (env.msm_turbo (resolved_step s policy idx).frequency =
        (resolved_step s policy idx).frequency →
      env.clk_round_rate (s.cpu_clk policy.cpu)
        (((resolved_step s policy idx).frequency * 1000) % U32) % U32 =
        (resolved_step s policy idx).frequency * 1000 →
      env.clk_round_rate (s.cpu_clk policy.cpu)
        ((env.msm_turbo (resolved_step s policy idx).frequency * 1000) % U32) % U32 =
        (resolved_step s policy idx).frequency * 1000) ∧
    (msm_cpufreq_target env s policy target_freq relation).2.freq_index =
      Function.update s.freq_index policy.cpu (resolved_step s policy idx).index ∧
    ((resolved_step s policy idx).index ≤
        aggregate_after s policy.cpu (resolved_step s policy idx).index ∧
      (∀ c ∈ s.cpu_online, c ≠ policy.cpu → s.freq_index c ≤
        aggregate_after s policy.cpu (resolved_step s policy idx).index) ∧
      (aggregate_after s policy.cpu (resolved_step s policy idx).index =
          (resolved_step s policy idx).index ∨
        ∃ c ∈ s.cpu_online, c ≠ policy.cpu ∧ s.freq_index c =
          aggregate_after s policy.cpu (resolved_step s policy idx).index)) ∧
    ∃ head bus tail,
      (msm_cpufreq_target env s policy target_freq relation).2.trace =
        s.trace ++ head ++
          [Event.clk_set_rate (s.cpu_clk policy.cpu)
             (env.clk_round_rate (s.cpu_clk policy.cpu)
               ((env.msm_turbo (resolved_step s policy idx).frequency * 1000) % U32) % U32),
           Event.mutex_lock Mutex.l2bw_lock] ++
          (match s.l2_clk with
           | some clk =>
             [Event.clk_set_rate (some clk)
               ((rd s.l2_khz (aggregate_after s policy.cpu (resolved_step s policy idx).index)
                 * 1000) % U32)]
           | none => []) ++
          bus ++ [Event.mutex_unlock Mutex.l2bw_lock] ++ tail ∧
      (∀ e ∈ head, ∀ c r, e ≠ Event.clk_set_rate c r) ∧
      (bus = [] ∨ bus = [Event.msm_bus_scale_client_update_request s.bus_client
        (aggregate_after s policy.cpu (resolved_step s policy idx).index)]) ∧
      (∀ e ∈ tail, ∀ c r, e ≠ Event.clk_set_rate c r) := by
  unfold aggregate_after resolved_step
  obtain ⟨w1, w2, w3⟩ := set_cpu_work_of_target env s policy idx
  have hret : (set_cpu_freq env (target_work_state s policy idx) policy
      (rd ((s.cpufreq_show_table policy.cpu).getD []) idx).frequency
      (rd ((s.cpufreq_show_table policy.cpu).getD []) idx).index).1 = 0 := by
    rw [target_reaches_work env s policy target_freq relation idx hne hsus hres] at hok
    rw [← w3]
    exact hok
  obtain ⟨k1, head, bus, tail, k2, k3, k4, k5⟩ :=
    set_cpu_freq_ok env (target_work_state s policy idx) policy _ _ hclk hret
  rw [target_reaches_work env s policy target_freq relation idx hne hsus hres]
  refine ⟨?_, ?_, ⟨?_, ?_, ?_⟩, ?_⟩
  · intro h1 h2
    rw [h1, h2]
  · show (set_cpu_work env (target_work_state s policy idx) policy.cpu).freq_index = _
    rw [w1, k1]
    rfl
  · have h := foldl_max_ge_mem
      (Function.update s.freq_index policy.cpu
        (rd ((s.cpufreq_show_table policy.cpu).getD []) idx).index) s.cpu_online 0
      policy.cpu hon
    rw [Function.update_same] at h
    exact h
  · intro c hc hcne
    have h := foldl_max_ge_mem
      (Function.update s.freq_index policy.cpu
        (rd ((s.cpufreq_show_table policy.cpu).getD []) idx).index) s.cpu_online 0 c hc
    rw [Function.update_noteq hcne] at h
    exact h
  · have hi := foldl_max_ge_mem
      (Function.update s.freq_index policy.cpu
        (rd ((s.cpufreq_show_table policy.cpu).getD []) idx).index) s.cpu_online 0
      policy.cpu hon
    rw [Function.update_same] at hi
    rcases foldl_max_attained
      (Function.update s.freq_index policy.cpu
        (rd ((s.cpufreq_show_table policy.cpu).getD []) idx).index) s.cpu_online 0
      with h | ⟨c, hc, h⟩
    · left
      show List.foldl _ 0 s.cpu_online = _
      rw [h] at hi ⊢
      omega
    · by_cases hcc : c = policy.cpu
      · left
        rw [hcc, Function.update_same] at h
        exact h.symm
      · right
        rw [Function.update_noteq hcc] at h
        exact ⟨c, hc, hcc, h⟩
  · refine ⟨[Event.mutex_lock (Mutex.suspend_mutex policy.cpu),
        Event.cancel_work_sync policy.cpu, Event.queue_work_on policy.cpu] ++ head, bus,
      tail ++ [Event.complete policy.cpu, Event.wait_for_completion policy.cpu,
        Event.mutex_unlock (Mutex.suspend_mutex policy.cpu)], ?_, ?_, k4, ?_⟩
    · show ((set_cpu_work env (target_work_state s policy idx) policy.cpu).trace ++
        [Event.wait_for_completion policy.cpu]) ++
        [Event.mutex_unlock (Mutex.suspend_mutex policy.cpu)] = _
      rw [w2, k2, target_work_state_trace]
      simp only [List.append_assoc, List.singleton_append, List.cons_append, List.nil_append]
      rfl
    · intro e he c r
      rcases List.mem_append.mp he with he | he
      · simp only [List.mem_cons, List.mem_singleton, List.not_mem_nil, or_false] at he
        rcases he with he | he | he <;> (rw [he]; exact fun h => Event.noConfusion h)
      · exact k3 e he c r
    · intro e he c r
      rcases List.mem_append.mp he with he | he
      · exact k5 e he c r
      · simp only [List.mem_cons, List.mem_singleton, List.not_mem_nil, or_false] at he
        rcases he with he | he | he <;> (rw [he]; exact fun h => Event.noConfusion h)

/-- C12, amended, at the scenario of the specification: table
`[300000, 600000, 900000]` kHz, cpu `0` at step `0`, target 700000 kHz with
`CPUFREQ_RELATION_H`, a clock that rounds every rate to itself and no turbo.
The target resolves to step `1`, the cpu clock is set to 600000000 Hz,
`freq_index[0]` becomes `1`, and the aggregate index is `1` when the other
cores are at step `0`, `2` when cpu `2` is at step `2`. -/
theorem C12_successful_request_sets_rounded_rate_witness :
    ((700000 : Nat) ≠ policy0_300.cur ∧ s_step0.device_suspended policy0_300.cpu = 0 ∧
      s_step0.is_clk = true ∧ policy0_300.cpu ∈ s_step0.cpu_online ∧
      env_ok.cpufreq_frequency_table_target policy0_300
        ((s_step0.cpufreq_show_table policy0_300.cpu).getD []) 700000 CPUFREQ_RELATION_H =
        some 1 ∧
      (msm_cpufreq_target env_ok s_step0 policy0_300 700000 CPUFREQ_RELATION_H).1 = 0) ∧
    resolved_step s_step0 policy0_300 1 = { index := 1, frequency := 600000 } ∧
    env_ok.clk_round_rate (s_step0.cpu_clk policy0_300.cpu)
      ((env_ok.msm_turbo (resolved_step s_step0 policy0_300 1).frequency * 1000) % U32) % U32 =
      (resolved_step s_step0 policy0_300 1).frequency * 1000 ∧
    (msm_cpufreq_target env_ok s_step0 policy0_300 700000 CPUFREQ_RELATION_H).2.freq_index =
      Function.update s_step0.freq_index policy0_300.cpu
        (resolved_step s_step0 policy0_300 1).index ∧
    aggregate_after s_step0 0 1 = 1 ∧
    aggregate_after s_step0_other2 0 1 = 2 ∧
    (msm_cpufreq_target env_ok s_step0 policy0_300 700000 CPUFREQ_RELATION_H).2.trace =
      [Event.mutex_lock (Mutex.suspend_mutex 0),
       Event.cancel_work_sync 0,
       Event.queue_work_on 0,
       Event.sched_setscheduler_nocheck 1 99,
       Event.cpufreq_notify_transition 300000 600000 0 CPUFREQ_PRECHANGE,
       Event.clk_set_rate (some 0) 600000000,
       Event.mutex_lock Mutex.l2bw_lock,
       Event.clk_set_rate (some 100) 300000000,
       Event.msm_bus_scale_client_update_request 7 1,
       Event.mutex_unlock Mutex.l2bw_lock,
       Event.cpufreq_notify_transition 300000 600000 0 CPUFREQ_POSTCHANGE,
       Event.sched_setscheduler_nocheck 0 0,
       Event.complete 0,
       Event.wait_for_completion 0,
       Event.mutex_unlock (Mutex.suspend_mutex 0)] :=
  ⟨⟨by decide, by decide, by decide, by decide, by decide, by decide⟩,
   by decide,
   (C12_successful_request_sets_rounded_rate env_ok s_step0 policy0_300 700000
      CPUFREQ_RELATION_H 1 (by decide) (by decide) (by decide) (by decide) (by decide)
      (by decide)).1 (by decide) (by decide),
   (C12_successful_request_sets_rounded_rate env_ok s_step0 policy0_300 700000
      CPUFREQ_RELATION_H 1 (by decide) (by decide) (by decide) (by decide) (by decide)
      (by decide)).2.1,
   by decide, by decide, by decide⟩

end MsmCpufreq
